import Mathlib

/-!
# School application backend (`src/index.js`)

A shallow embedding of the Express/Mongoose handlers of `src/index.js`.

* The database is a record of four collections, each a list of documents in
  insertion order (`findOne`/`findById` return the first match).
* Every handler is a pure function from the database before the request to the
  response and the database after it.
* Library code that is not part of the repository (`mongoose.Types.ObjectId`,
  `jsonwebtoken`, `bcrypt`) is a parameter `Lib`; `refLib` is a small concrete
  instance used to evaluate the handlers on concrete requests.
* Values chosen by the runtime (the `_id` of a new document, the bcrypt salt)
  and the outcome of each `save()` (stored, or rejected by the storage) are
  passed in as `Nondet`.
-/

namespace SchoolApp

/-- An ObjectId value, as stored in `_id` and in the reference arrays. -/
abbrev ObjectId := Nat

/-! ## Schemas (index.js 20-49) -/

/-- Documents of `userSchema`.  The schema has no `classes` path. -/
structure User where
  _id : ObjectId
  name : Option String
  email : Option String
  password : Option String
  photo : Option String
  parentInviteCode : Option String
  teacherInviteCode : Option String
  role : Option String
  deriving DecidableEq, Repr

/-- Documents of `schoolSchema`. -/
structure School where
  _id : ObjectId
  name : Option String
  photo : Option String
  deriving DecidableEq, Repr

/-- Documents of `classSchema`. -/
structure Class where
  _id : ObjectId
  name : Option String
  students : List ObjectId
  deriving DecidableEq, Repr

/-- Documents of `studentSchema`. -/
structure Student where
  _id : ObjectId
  name : Option String
  photo : Option String
  classes : List ObjectId
  deriving DecidableEq, Repr

/-- The four collections of the `schoolApp` database. -/
structure Db where
  users : List User
  schools : List School
  classes : List Class
  students : List Student
  deriving DecidableEq, Repr

/-- The database with no documents. -/
def Db.empty : Db := ⟨[], [], [], []⟩

/-! ## Library parameters -/

/-- The `user` object inside a token payload: `{ id }`. -/
structure UserClaim where
  id : Option String
  deriving DecidableEq, Repr

/-- A decoded token payload: `{ user }`. -/
structure Payload where
  user : Option UserClaim
  deriving DecidableEq, Repr

/-- The library functions the handlers call.
`parseId s` is the ObjectId a string casts to; on a string `ObjectId.isValid`
holds exactly when the cast succeeds.  `castNum n` is the ObjectId the JSON
number `n` casts to in `Model.findById` (the cast goes through the string
rendering of the number).  `showId` is the string an ObjectId serialises to
inside a token payload. -/
structure Lib where
  parseId : String → Option ObjectId
  castNum : Nat → Option ObjectId
  showId : ObjectId → String
  jwtSign : Payload → String → String
  jwtVerify : String → String → Option Payload
  bcryptHash : String → Nat → String
  bcryptCompare : String → String → Bool

/-- Runtime choices made while a request is served: the `_id` generated for a
new document, the bcrypt salt, and whether the storage accepts the first and
the second `save()` of the request (`false`: the `save()` rejects and nothing
is written by it). -/
structure Nondet where
  newId : ObjectId
  salt : Nat
  firstSaveOk : Bool
  secondSaveOk : Bool
  deriving DecidableEq, Repr

/-- The JSON value of a body field that carries an id: absent (`undefined` or
`null`), a string, or a number. -/
inductive IdField where
  | absent
  | str (s : String)
  | num (n : Nat)
  deriving DecidableEq, Repr

/-- The call `mongoose.Types.ObjectId.isValid(s)` on a string. -/
def Lib.isValid (L : Lib) (s : String) : Bool := (L.parseId s).isSome

/-- The call `mongoose.Types.ObjectId.isValid(v)` on a body field: an absent
value is not valid, a string is valid when it casts, and every number is valid
(an ObjectId can be constructed from a number). -/
def Lib.isValidField (L : Lib) : IdField → Bool
  | .absent => false
  | .str s => L.isValid s
  | .num _ => true

/-- The ObjectId that `Model.findById(v)` casts a body field to; `none` is a
cast error. -/
def Lib.castField (L : Lib) : IdField → Option ObjectId
  | .absent => none
  | .str s => L.parseId s
  | .num n => L.castNum n

/-! ## Collection operations -/

/-- The call `Model.findById(id)` with an ObjectId: the first document with that `_id`. -/
def findById {α : Type} (key : α → ObjectId) (xs : List α) (id : ObjectId) : Option α :=
  xs.find? (fun x => key x == id)

/-- Inserting a new document: refused (duplicate key on `_id`) when the
collection already holds a document with the same `_id`. -/
def insertDoc {α : Type} (key : α → ObjectId) (xs : List α) (d : α) : Option (List α) :=
  if xs.any (fun x => key x == key d) then none else some (xs ++ [d])

/-- Saving a modified document: applies the change to the first stored document with that `_id`. -/
def updateById {α : Type} (key : α → ObjectId) (f : α → α) : List α → ObjectId → List α
  | [], _ => []
  | x :: xs, id => if key x = id then f x :: xs else x :: updateById key f xs id

/-! ## Responses -/

/-- The user object of the login response: `toObject()` with `password`
overwritten by `undefined`. -/
structure UserObject where
  _id : ObjectId
  name : Option String
  email : Option String
  password : Option String
  photo : Option String
  parentInviteCode : Option String
  teacherInviteCode : Option String
  role : Option String
  deriving DecidableEq, Repr

/-- JSON bodies the handlers send. -/
inductive Body where
  | message (m : String)
  | error (e : String)
  | signedUp (m : String) (user : User)
  | loggedIn (m : String) (user : UserObject) (token : String)
  | school (s : School)
  | schools (l : List School)
  | cls (c : Class)
  | student (s : Student)
  | students (l : List Student)
  deriving DecidableEq, Repr

/-- An HTTP response: status code and JSON body. -/
structure Response where
  status : Nat
  body : Body
  deriving DecidableEq, Repr

/-- The blanket `catch` of the handlers with a `message` body (signup, login). -/
def internalErrorMessage : Response := ⟨500, .message "Internal Server Error"⟩

/-- The blanket `catch` of the handlers with an `error` body. -/
def internalError : Response := ⟨500, .error "Internal Server Error"⟩

/-! ## Auth middleware (index.js 54-69) -/

/-- What `authenticateUser` does: it either sends a response itself or calls
`next()` with `req.user` set. -/
inductive AuthResult where
  | respond (r : Response)
  | next (user : Option UserClaim)
  deriving DecidableEq, Repr

/-- The secret `process.env.SECRET_KEY || 'default_secret_key'`. -/
def verifySecret (secretKey : Option String) : String :=
  match secretKey with
  | none => "default_secret_key"
  | some k => if k = "" then "default_secret_key" else k

/-- The middleware `authenticateUser`.  `header` is `req.header('Authorization')`. -/
def authenticateUser (L : Lib) (secretKey : Option String) (header : Option String) :
    AuthResult :=
  match header with
  | none => .respond ⟨401, .message "Unauthorized"⟩
  | some token =>
    if token = "" then .respond ⟨401, .message "Unauthorized"⟩
    else
      match L.jwtVerify token (verifySecret secretKey) with
      | some decoded => .next decoded.user
      | none => .respond ⟨401, .message "Invalid token"⟩

/-! ## Route handlers -/

/-- The handler of `POST /api/signup` (index.js 74-96). -/
def signup (L : Lib) (nd : Nondet) (db : Db)
    (name email password parentInviteCode teacherInviteCode file : Option String) :
    Response × Db :=
  match password with
  | none => (internalErrorMessage, db)
  | some pw =>
    let user : User :=
      { _id := nd.newId, name := name, email := email,
        password := some (L.bcryptHash pw nd.salt),
        photo := file, parentInviteCode := parentInviteCode,
        teacherInviteCode := teacherInviteCode, role := some "student" }
    if !nd.firstSaveOk then (internalErrorMessage, db)
    else
      match insertDoc User._id db.users user with
      | none => (internalErrorMessage, db)
      | some users =>
        (⟨200, .signedUp "User created successfully" user⟩, { db with users := users })

/-- The object `{ ...user.toObject(), password: undefined }`. -/
def User.withoutPassword (u : User) : UserObject :=
  { _id := u._id, name := u.name, email := u.email, password := none, photo := u.photo,
    parentInviteCode := u.parentInviteCode, teacherInviteCode := u.teacherInviteCode,
    role := u.role }

/-- The handler of `POST /api/login` (index.js 98-121). -/
def login (L : Lib) (db : Db) (email password : Option String) : Response × Db :=
  match db.users.find? (fun u => u.email == email) with
  | none => (⟨401, .message "Invalid credentials"⟩, db)
  | some user =>
    match password, user.password with
    | some pw, some stored =>
      if L.bcryptCompare pw stored then
        let token := L.jwtSign ⟨some ⟨some (L.showId user._id)⟩⟩ "secret_key"
        (⟨200, .loggedIn "Login successful" user.withoutPassword token⟩, db)
      else (⟨401, .message "Invalid credentials"⟩, db)
    | _, _ => (internalErrorMessage, db)

/-- The handler of `POST /schools` (index.js 125-138). -/
def createSchool (nd : Nondet) (db : Db) (name photo : Option String) : Response × Db :=
  let school : School := { _id := nd.newId, name := name, photo := photo }
  if !nd.firstSaveOk then (internalError, db)
  else
    match insertDoc School._id db.schools school with
    | none => (internalError, db)
    | some schools => (⟨200, .school school⟩, { db with schools := schools })

/-- The value of `user.classes`: `userSchema` has no such path, so it is `undefined`. -/
def User.classes (_u : User) : Option (List ObjectId) := none

/-- The query `School.find({ _id: { $in: ids } })`.  With `ids` undefined the
filter holds no ObjectId and selects no document. -/
def findSchoolsIn (schools : List School) : Option (List ObjectId) → List School
  | none => []
  | some ids => schools.filter (fun s => decide (s._id ∈ ids))

/-- The handler of `GET /my-schools` (index.js 141-170), after the middleware. -/
def mySchools (L : Lib) (db : Db) (reqUser : Option UserClaim) : Response × Db :=
  match reqUser.bind (fun u => u.id) with
  | none => (⟨401, .message "Unauthorized"⟩, db)
  | some userId =>
    if userId = "" then (⟨401, .message "Unauthorized"⟩, db)
    else
      match L.parseId userId with
      | none => (internalError, db)
      | some uid =>
        match findById User._id db.users uid with
        | none => (⟨404, .message "User not found"⟩, db)
        | some user =>
          if user.role = some "student" ∨ user.role = some "teacher" then
            (⟨200, .schools (findSchoolsIn db.schools user.classes)⟩, db)
          else (⟨200, .schools db.schools⟩, db)

/-- The handler of `POST /classes` (index.js 174-187), after the middleware. -/
def createClass (nd : Nondet) (db : Db) (name : Option String) : Response × Db :=
  let newClass : Class := { _id := nd.newId, name := name, students := [] }
  if !nd.firstSaveOk then (internalError, db)
  else
    match insertDoc Class._id db.classes newClass with
    | none => (internalError, db)
    | some classes => (⟨200, .cls newClass⟩, { db with classes := classes })

/-- The handler of `GET /classes/:classId` (index.js 190-212), after the middleware.
A cast error of `findById` would reach the `catch`. -/
def getClassById (L : Lib) (db : Db) (classId : String) : Response × Db :=
  if !L.isValid classId then (⟨400, .message "Invalid class ID"⟩, db)
  else
    match L.parseId classId with
    | none => (internalError, db)
    | some cid =>
      match findById Class._id db.classes cid with
      | none => (⟨404, .message "Class not found"⟩, db)
      | some foundClass => (⟨200, .cls foundClass⟩, db)

/-- The handler of `POST /students` (index.js 215-232), after the middlewares. -/
def createStudent (nd : Nondet) (db : Db) (name file : Option String) : Response × Db :=
  let newStudent : Student := { _id := nd.newId, name := name, photo := file, classes := [] }
  if !nd.firstSaveOk then (internalError, db)
  else
    match insertDoc Student._id db.students newStudent with
    | none => (internalError, db)
    | some students => (⟨200, .student newStudent⟩, { db with students := students })

/-- The handler of `GET /students` (index.js 235-245), after the middleware. -/
def listStudents (db : Db) : Response × Db := (⟨200, .students db.students⟩, db)

/-- The change `foundClass.students.push(id)` on a Class document. -/
def Class.pushStudent (id : ObjectId) (c : Class) : Class :=
  { c with students := c.students ++ [id] }

/-- The change `foundStudent.classes.push(id)` on a Student document. -/
def Student.pushClass (id : ObjectId) (s : Student) : Student :=
  { s with classes := s.classes ++ [id] }

/-- The handler of `POST /assign-student-to-class` (index.js 248-278), after the middleware.
A cast error of `findById` and a rejected `save()` reach the `catch`.  Each
`save()` pushes the new element onto the array of the stored document; the two
saves are separate writes, so the class save stays stored when the student save
is rejected. -/
def assignStudentToClass (L : Lib) (nd : Nondet) (db : Db) (class_id student_id : IdField) :
    Response × Db :=
  if !L.isValidField class_id || !L.isValidField student_id then
    (⟨400, .message "Invalid class or student ID"⟩, db)
  else
    match L.castField class_id, L.castField student_id with
    | some cid, some sid =>
      match findById Class._id db.classes cid, findById Student._id db.students sid with
      | some foundClass, some foundStudent =>
        if !nd.firstSaveOk then (internalError, db)
        else
          let classes :=
            updateById Class._id (Class.pushStudent foundStudent._id) db.classes foundClass._id
          if !nd.secondSaveOk then (internalError, { db with classes := classes })
          else
            let students :=
              updateById Student._id (Student.pushClass foundClass._id) db.students
                foundStudent._id
            (⟨200, .message "Student assigned to class successfully"⟩,
              { db with classes := classes, students := students })
      | _, _ => (⟨404, .message "Class or student not found"⟩, db)
    | _, _ => (internalError, db)

/-- The handler of `GET /students-in-all-classes` (index.js 281-301), after the middleware.
The query `{ classes: { $all: ids } }` selects the students whose `classes`
array holds every element of `ids`. -/
def studentsInAllClasses (db : Db) : Response × Db :=
  let allClasses := db.classes
  if allClasses.length = 0 then (⟨200, .students []⟩, db)
  else
    let ids := allClasses.map (fun c => c._id)
    (⟨200, .students (db.students.filter (fun s => ids.all (fun i => decide (i ∈ s.classes))))⟩, db)

/-- The handler of `GET /classmates/:studentId` (index.js 304-335), after the middleware.
The query `{ _id: { $ne: t }, classes: { $in: cs } }` selects the students other
than `t` whose `classes` array holds at least one element of `cs`. -/
def classmates (L : Lib) (db : Db) (studentId : String) : Response × Db :=
  if !L.isValid studentId then (⟨400, .message "Invalid student ID"⟩, db)
  else
    match L.parseId studentId with
    | none => (internalError, db)
    | some sid =>
      match findById Student._id db.students sid with
      | none => (⟨404, .message "Student not found"⟩, db)
      | some targetStudent =>
        let studentClasses := targetStudent.classes
        (⟨200, .students (db.students.filter (fun s =>
            s._id != targetStudent._id &&
              s.classes.any (fun i => decide (i ∈ studentClasses))))⟩, db)

/-! ## Routing -/

/-- A request to one of the routes of the application, with the data the handler
reads.  Names, emails and passwords are JSON strings or absent, the ids of the
assignment body are `IdField` values, path parameters are strings, and `file` is
the path of the uploaded photo, if any. -/
inductive Request where
  | signup (name email password parentInviteCode teacherInviteCode file : Option String)
  | login (email password : Option String)
  | createSchool (name photo : Option String)
  | mySchools
  | createClass (name : Option String)
  | getClassById (classId : String)
  | createStudent (name file : Option String)
  | listStudents
  | assignStudentToClass (class_id student_id : IdField)
  | studentsInAllClasses
  | classmates (studentId : String)
  deriving DecidableEq, Repr

/-- The routes registered with `authenticateUser` as their first middleware. -/
def Request.isProtected : Request → Bool
  | .signup .. => false
  | .login .. => false
  | .createSchool .. => false
  | _ => true

/-- The handler of a protected route, run once the middleware has called `next()`.
The three routes registered without the middleware never reach it. -/
def runProtected (L : Lib) (nd : Nondet) (db : Db) (reqUser : Option UserClaim) :
    Request → Response × Db
  | .mySchools => mySchools L db reqUser
  | .createClass name => createClass nd db name
  | .getClassById classId => getClassById L db classId
  | .createStudent name file => createStudent nd db name file
  | .listStudents => listStudents db
  | .assignStudentToClass c s => assignStudentToClass L nd db c s
  | .studentsInAllClasses => studentsInAllClasses db
  | .classmates studentId => classmates L db studentId
  | _ => (internalError, db)

/-- The application: one request served against a database.  `secretKey` is
`process.env.SECRET_KEY`, `header` the `Authorization` header. -/
def handle (L : Lib) (secretKey : Option String) (nd : Nondet) (db : Db)
    (header : Option String) (req : Request) : Response × Db :=
  match req with
  | .signup n e p pc tc f => signup L nd db n e p pc tc f
  | .login e p => login L db e p
  | .createSchool n p => createSchool nd db n p
  | r =>
    match authenticateUser L secretKey header with
    | .respond resp => (resp, db)
    | .next reqUser => runProtected L nd db reqUser r

/-! ## Reachable states and the link invariant -/

/-- The requests that create or link Class and Student records. -/
def Request.isLinkOp : Request → Bool
  | .createClass _ => true
  | .createStudent _ _ => true
  | .assignStudentToClass _ _ => true
  | _ => false

/-- Whether a served request was cut short after a stored save: it is answered
500 although it changed the database `db` it was served against. -/
def cutShort (db : Db) (out : Response × Db) : Bool :=
  out.1.status == 500 && out.2 != db

/-- The database states reached from the empty database by completed
create-class, create-student and assign-student-to-class requests, whatever
their header, body and outcome.  The flag records whether some request of the
run was cut short after a stored save. -/
inductive Reachable (L : Lib) (secretKey : Option String) : Bool → Db → Prop where
  | empty : Reachable L secretKey false Db.empty
  | step (cut : Bool) (db : Db) (nd : Nondet) (header : Option String) (req : Request) :
      Reachable L secretKey cut db → req.isLinkOp = true →
      Reachable L secretKey (cut || cutShort db (handle L secretKey nd db header req))
        (handle L secretKey nd db header req).2

/-- The number of occurrences of a student id in a class's list and of the class
id in that student's list are related by `R`, for every class and student. -/
def LinkRel (R : Nat → Nat → Prop) (db : Db) : Prop :=
  ∀ c ∈ db.classes, ∀ s ∈ db.students, R (c.students.count s._id) (s.classes.count c._id)

/-- Every student id occurs in a class's list as often as the class id occurs
in that student's list. -/
def LinkSymmetric (db : Db) : Prop := LinkRel (fun a b => a = b) db

/-- Every id stored in a reference array is the `_id` of a stored record. -/
def NoDangling (db : Db) : Prop :=
  (∀ c ∈ db.classes, ∀ i ∈ c.students, ∃ s ∈ db.students, s._id = i) ∧
  (∀ s ∈ db.students, ∀ i ∈ s.classes, ∃ c ∈ db.classes, c._id = i)

/-- No class id occurs in a student's list more often than the student id
occurs in that class's list. -/
def LinkBounded (db : Db) : Prop := LinkRel (fun a b => b ≤ a) db

/-- No two Class records and no two Student records share an `_id`. -/
def UniqueIds (db : Db) : Prop :=
  (db.classes.map Class._id).Nodup ∧ (db.students.map Student._id).Nodup

/-! ## A reference instance of the library -/

/-- The value of a hexadecimal digit. -/
def hexVal (c : Char) : Option Nat :=
  if 48 ≤ c.toNat ∧ c.toNat ≤ 57 then some (c.toNat - 48)
  else if 97 ≤ c.toNat ∧ c.toNat ≤ 102 then some (c.toNat - 87)
  else if 65 ≤ c.toNat ∧ c.toNat ≤ 70 then some (c.toNat - 55)
  else none

/-- The number a list of hexadecimal digits denotes, continuing from `acc`. -/
def parseHex : List Char → Nat → Option Nat
  | [], acc => some acc
  | c :: cs, acc =>
    match hexVal c with
    | none => none
    | some v => parseHex cs (16 * acc + v)

/-- A string casts to an ObjectId when it is 24 hexadecimal digits. -/
def refParseId (s : String) : Option ObjectId :=
  if s.data.length = 24 then parseHex s.data 0 else none

/-- The `k` low hexadecimal digits of `n`, most significant first. -/
def hexDigits : Nat → Nat → List Char
  | 0, _ => []
  | k + 1, n => hexDigits k (n / 16) ++ [(Nat.digitChar (n % 16))]

/-- The 24-digit rendering of an ObjectId. -/
def refShowId (i : ObjectId) : String := String.mk (hexDigits 24 i)

/-- The part of a reference token that depends on the secret. -/
def keyTag (k : String) : List Char := List.replicate k.data.length 'x' ++ '.' :: k.data

/-- The part of a reference token that depends on the payload. -/
def encodePayload : Payload → List Char
  | ⟨none⟩ => ['n']
  | ⟨some ⟨none⟩⟩ => ['u']
  | ⟨some ⟨some i⟩⟩ => 'i' :: i.data

/-- The inverse of `encodePayload`. -/
def decodePayload : List Char → Option Payload
  | ['n'] => some ⟨none⟩
  | ['u'] => some ⟨some ⟨none⟩⟩
  | 'i' :: cs => some ⟨some ⟨some (String.mk cs)⟩⟩
  | _ => none

/-- Removes the leading `tag` from `l`, when `l` starts with it. -/
def dropTag : List Char → List Char → Option (List Char)
  | [], l => some l
  | _ :: _, [] => none
  | a :: tag, b :: l => if a = b then dropTag tag l else none

/-- Reference `jwt.sign`. -/
def refSign (p : Payload) (k : String) : String := String.mk (keyTag k ++ encodePayload p)

/-- Reference `jwt.verify`: `none` stands for a thrown error. -/
def refVerify (t k : String) : Option Payload :=
  match dropTag (keyTag k) t.data with
  | none => none
  | some rest => decodePayload rest

/-- Reference `bcrypt.hash`. -/
def refHash (p : String) (salt : Nat) : String :=
  String.mk (List.replicate salt '$' ++ '#' :: p.data)

/-- Reference `bcrypt.compare`. -/
def refCompare (p h : String) : Bool :=
  h.data.dropWhile (fun c => c == '$') == '#' :: p.data

/-- The reference library.  No number casts to an ObjectId: the string rendering
of a number is never 24 hexadecimal digits. -/
def refLib : Lib :=
  { parseId := refParseId, castNum := fun _ => none, showId := refShowId,
    jwtSign := refSign, jwtVerify := refVerify,
    bcryptHash := refHash, bcryptCompare := refCompare }

/-! ## Sample data -/

/-- A token the middleware accepts when `SECRET_KEY` is unset. -/
def sampleToken : String :=
  refLib.jwtSign ⟨some ⟨some "0000000000000000000000a1"⟩⟩ "default_secret_key"

/-- The `req.user` the middleware derives from `sampleToken`. -/
def sampleUser : Option UserClaim := some ⟨some "0000000000000000000000a1"⟩

/-- A database with two users, one school, two classes and three students. -/
def sampleDb : Db :=
  { users :=
      [⟨161, some "Ann", some "a@b.com", some (refHash "pw123" 2), none, none, none,
          some "student"⟩,
       ⟨162, some "Root", some "r@b.com", some (refHash "root" 1), none, none, none,
          some "admin"⟩],
    schools := [⟨1, some "North", none⟩],
    classes := [⟨193, some "Maths", [225, 226]⟩, ⟨194, some "Art", [225]⟩],
    students :=
      [⟨225, some "Ann", none, [193, 194]⟩, ⟨226, some "Bob", none, [193]⟩,
       ⟨227, some "Cy", none, []⟩] }

/-- The state after creating a class and a student and assigning the student to
the class twice, every save stored. -/
def linkedDb : Db :=
  (handle refLib none ⟨0, 0, true, true⟩
    (handle refLib none ⟨0, 0, true, true⟩
      (handle refLib none ⟨225, 0, true, true⟩
        (handle refLib none ⟨193, 0, true, true⟩ Db.empty (some sampleToken)
          (.createClass (some "Maths"))).2
        (some sampleToken) (.createStudent (some "Ann") none)).2
      (some sampleToken)
      (.assignStudentToClass (.str "0000000000000000000000c1")
        (.str "0000000000000000000000e1"))).2
    (some sampleToken)
    (.assignStudentToClass (.str "0000000000000000000000c1")
      (.str "0000000000000000000000e1"))).2

/-- The state after creating a class and a student and one assignment whose
class save is stored and whose student save is rejected. -/
def halfLinkedDb : Db :=
  (handle refLib none ⟨0, 0, true, false⟩
    (handle refLib none ⟨225, 0, true, true⟩
      (handle refLib none ⟨193, 0, true, true⟩ Db.empty (some sampleToken)
        (.createClass (some "Maths"))).2
      (some sampleToken) (.createStudent (some "Ann") none)).2
    (some sampleToken)
    (.assignStudentToClass (.str "0000000000000000000000c1")
      (.str "0000000000000000000000e1"))).2

/-! ## Basic facts about the collection operations -/

lemma findById_eq_none_iff {α : Type} (key : α → ObjectId) (xs : List α) (id : ObjectId) :
    findById key xs id = none ↔ ∀ x ∈ xs, key x ≠ id := by
  simp [findById, List.find?_eq_none]

lemma findById_some {α : Type} {key : α → ObjectId} {xs : List α} {id : ObjectId} {x : α}
    (h : findById key xs id = some x) : x ∈ xs ∧ key x = id := by
  unfold findById at h
  refine ⟨List.mem_of_find?_eq_some h, ?_⟩
  simpa using List.find?_some h

lemma handle_of_next (L : Lib) (secretKey : Option String) (nd : Nondet) (db : Db)
    (header : Option String) (u : Option UserClaim) (req : Request)
    (hp : req.isProtected = true) (hauth : authenticateUser L secretKey header = .next u) :
    handle L secretKey nd db header req = runProtected L nd db u req := by
  cases req <;> simp [Request.isProtected] at hp <;> simp [handle, hauth]

lemma handle_of_respond (L : Lib) (secretKey : Option String) (nd : Nondet) (db : Db)
    (header : Option String) (r : Response) (req : Request)
    (hp : req.isProtected = true) (hauth : authenticateUser L secretKey header = .respond r) :
    handle L secretKey nd db header req = (r, db) := by
  cases req <;> simp [Request.isProtected] at hp <;> simp [handle, hauth]

/-! ## The auth middleware rejects -/

/-- C1 (as stated, refuted): an `Authorization` header that is present but empty
holds a token that fails verification, yet the answer on `/my-schools` is
`Unauthorized`, not `Invalid token`. -/
theorem empty_header_not_invalid_token :
    refLib.jwtVerify "" (verifySecret none) = none ∧
    (handle refLib none ⟨0, 0, true, true⟩ Db.empty (some "") Request.mySchools).1
      = ⟨401, .message "Unauthorized"⟩ ∧
    (handle refLib none ⟨0, 0, true, true⟩ Db.empty (some "") Request.mySchools).1
      ≠ ⟨401, .message "Invalid token"⟩ := by
  decide

/-- C1 (amended): on every auth-protected route, a request whose `Authorization`
header is absent, empty, or fails verification is answered by `authenticateUser`
itself with status 401, `next` is not called and the database is unchanged; the
message is `Unauthorized` for an absent or empty header and `Invalid token` for a
non-empty header that fails verification. -/
theorem unauthenticated_request_rejected (L : Lib) (secretKey : Option String) (nd : Nondet)
    (db : Db) (header : Option String) (req : Request)
    (hp : req.isProtected = true)
    (hbad : header = none ∨ header = some "" ∨
      ∃ t, header = some t ∧ L.jwtVerify t (verifySecret secretKey) = none) :
    (∃ r, authenticateUser L secretKey header = .respond r ∧ r.status = 401 ∧
        handle L secretKey nd db header req = (r, db)) ∧
    ((header = none ∨ header = some "") →
        (handle L secretKey nd db header req).1 = ⟨401, .message "Unauthorized"⟩) ∧
    ((∃ t, header = some t ∧ t ≠ "" ∧ L.jwtVerify t (verifySecret secretKey) = none) →
        (handle L secretKey nd db header req).1 = ⟨401, .message "Invalid token"⟩) ∧
    (handle L secretKey nd db header req).2 = db := by
  have key : ∃ r, authenticateUser L secretKey header = .respond r ∧ r.status = 401 ∧
      ((header = none ∨ header = some "") → r = ⟨401, .message "Unauthorized"⟩) ∧
      ((∃ t, header = some t ∧ t ≠ "" ∧ L.jwtVerify t (verifySecret secretKey) = none) →
        r = ⟨401, .message "Invalid token"⟩) := by
    rcases hbad with h | h | ⟨t, h, hv⟩
    · subst h
      exact ⟨_, rfl, rfl, fun _ => rfl, by simp⟩
    · subst h
      exact ⟨_, by simp [authenticateUser], rfl, fun _ => rfl, by simp⟩
    · subst h
      by_cases ht : t = ""
      · subst ht
        exact ⟨_, by simp [authenticateUser], rfl, fun _ => rfl, by simp⟩
      · exact ⟨_, by simp [authenticateUser, ht, hv], rfl, by simp [ht], fun _ => rfl⟩
  obtain ⟨r, hr, hs, h1, h2⟩ := key
  have hh := handle_of_respond L secretKey nd db header r req hp hr
  refine ⟨⟨r, hr, hs, hh⟩, ?_, ?_, ?_⟩
  · intro h; rw [hh]; exact h1 h
  · intro h; rw [hh]; exact h2 h
  · rw [hh]

/-- Witness for `unauthenticated_request_rejected`: a garbage token on
`POST /assign-student-to-class`. -/
theorem unauthenticated_request_rejected_witness :
    Request.isProtected (.assignStudentToClass (.str "a") (.str "b")) = true ∧
    refLib.jwtVerify "garbage" (verifySecret none) = none ∧
    (∃ r, authenticateUser refLib none (some "garbage") = .respond r ∧ r.status = 401 ∧
        handle refLib none ⟨7, 0, true, true⟩ sampleDb (some "garbage")
          (.assignStudentToClass (.str "a") (.str "b")) = (r, sampleDb)) ∧
    (((some "garbage" : Option String) = none ∨ (some "garbage" : Option String) = some "") →
        (handle refLib none ⟨7, 0, true, true⟩ sampleDb (some "garbage")
          (.assignStudentToClass (.str "a") (.str "b"))).1
            = ⟨401, .message "Unauthorized"⟩) ∧
    ((∃ t, some "garbage" = some t ∧ t ≠ "" ∧ refLib.jwtVerify t (verifySecret none) = none) →
        (handle refLib none ⟨7, 0, true, true⟩ sampleDb (some "garbage")
          (.assignStudentToClass (.str "a") (.str "b"))).1
            = ⟨401, .message "Invalid token"⟩) ∧
    (handle refLib none ⟨7, 0, true, true⟩ sampleDb (some "garbage")
          (.assignStudentToClass (.str "a") (.str "b"))).2 = sampleDb :=
  ⟨by decide, by decide,
   unauthenticated_request_rejected refLib none ⟨7, 0, true, true⟩ sampleDb (some "garbage")
    (.assignStudentToClass (.str "a") (.str "b")) (by decide)
    (Or.inr (Or.inr ⟨"garbage", rfl, by decide⟩))⟩


/-! ## Case equations of the handlers -/

lemma isValid_eq_false_iff (L : Lib) (s : String) :
    L.isValid s = false ↔ L.parseId s = none := by
  simp [Lib.isValid]

lemma isValidField_of_castField (L : Lib) (f : IdField) (i : ObjectId)
    (h : L.castField f = some i) : L.isValidField f = true := by
  cases f with
  | absent => simp [Lib.castField] at h
  | str s =>
    simp only [Lib.castField] at h
    simp [Lib.isValidField, Lib.isValid, h]
  | num n => rfl

lemma getClassById_invalid (L : Lib) (db : Db) (classId : String)
    (h : L.parseId classId = none) :
    getClassById L db classId = (⟨400, .message "Invalid class ID"⟩, db) := by
  simp [getClassById, Lib.isValid, h]

lemma getClassById_missing (L : Lib) (db : Db) (classId : String) (cid : ObjectId)
    (h : L.parseId classId = some cid) (hf : findById Class._id db.classes cid = none) :
    getClassById L db classId = (⟨404, .message "Class not found"⟩, db) := by
  simp [getClassById, Lib.isValid, h, hf]

lemma getClassById_found (L : Lib) (db : Db) (classId : String) (cid : ObjectId) (c : Class)
    (h : L.parseId classId = some cid) (hf : findById Class._id db.classes cid = some c) :
    getClassById L db classId = (⟨200, .cls c⟩, db) := by
  simp [getClassById, Lib.isValid, h, hf]

lemma assign_invalid (L : Lib) (nd : Nondet) (db : Db) (class_id student_id : IdField)
    (h : L.isValidField class_id = false ∨ L.isValidField student_id = false) :
    assignStudentToClass L nd db class_id student_id
      = (⟨400, .message "Invalid class or student ID"⟩, db) := by
  rcases h with h | h <;> simp [assignStudentToClass, h]

lemma assign_cast_error (L : Lib) (nd : Nondet) (db : Db) (class_id student_id : IdField)
    (h1 : L.isValidField class_id = true) (h2 : L.isValidField student_id = true)
    (h : L.castField class_id = none ∨ L.castField student_id = none) :
    assignStudentToClass L nd db class_id student_id = (internalError, db) := by
  unfold assignStudentToClass
  rcases h with h | h
  · simp [h1, h2, h]
  · cases hc : L.castField class_id <;> simp [h1, h2, h]

lemma assign_missing (L : Lib) (nd : Nondet) (db : Db) (class_id student_id : IdField)
    (cid sid : ObjectId)
    (hc : L.castField class_id = some cid) (hs : L.castField student_id = some sid)
    (h : findById Class._id db.classes cid = none ∨
      findById Student._id db.students sid = none) :
    assignStudentToClass L nd db class_id student_id
      = (⟨404, .message "Class or student not found"⟩, db) := by
  have h1 := isValidField_of_castField L _ _ hc
  have h2 := isValidField_of_castField L _ _ hs
  unfold assignStudentToClass
  rw [hc, hs]
  rcases h with h | h
  · simp [h1, h2, h]
  · cases hf : findById Class._id db.classes cid <;> simp [h1, h2, h]

lemma assign_rejected (L : Lib) (nd : Nondet) (db : Db) (class_id student_id : IdField)
    (cid sid : ObjectId) (c : Class) (s : Student)
    (hc : L.castField class_id = some cid) (hs : L.castField student_id = some sid)
    (hfc : findById Class._id db.classes cid = some c)
    (hfs : findById Student._id db.students sid = some s)
    (hw : nd.firstSaveOk = false) :
    assignStudentToClass L nd db class_id student_id = (internalError, db) := by
  have h1 := isValidField_of_castField L _ _ hc
  have h2 := isValidField_of_castField L _ _ hs
  unfold assignStudentToClass
  rw [hc, hs]
  simp [h1, h2, hfc, hfs, hw]

lemma assign_cut (L : Lib) (nd : Nondet) (db : Db) (class_id student_id : IdField)
    (cid sid : ObjectId) (c : Class) (s : Student)
    (hc : L.castField class_id = some cid) (hs : L.castField student_id = some sid)
    (hfc : findById Class._id db.classes cid = some c)
    (hfs : findById Student._id db.students sid = some s)
    (hw1 : nd.firstSaveOk = true) (hw2 : nd.secondSaveOk = false) :
    assignStudentToClass L nd db class_id student_id
      = (internalError,
          { db with
            classes := updateById Class._id (Class.pushStudent s._id) db.classes c._id }) := by
  have h1 := isValidField_of_castField L _ _ hc
  have h2 := isValidField_of_castField L _ _ hs
  unfold assignStudentToClass
  rw [hc, hs]
  simp [h1, h2, hfc, hfs, hw1, hw2]

lemma assign_found (L : Lib) (nd : Nondet) (db : Db) (class_id student_id : IdField)
    (cid sid : ObjectId) (c : Class) (s : Student)
    (hc : L.castField class_id = some cid) (hs : L.castField student_id = some sid)
    (hfc : findById Class._id db.classes cid = some c)
    (hfs : findById Student._id db.students sid = some s)
    (hw1 : nd.firstSaveOk = true) (hw2 : nd.secondSaveOk = true) :
    assignStudentToClass L nd db class_id student_id
      = (⟨200, .message "Student assigned to class successfully"⟩,
          { db with
            classes := updateById Class._id (Class.pushStudent s._id) db.classes c._id,
            students := updateById Student._id (Student.pushClass c._id) db.students s._id }) := by
  have h1 := isValidField_of_castField L _ _ hc
  have h2 := isValidField_of_castField L _ _ hs
  unfold assignStudentToClass
  rw [hc, hs]
  simp [h1, h2, hfc, hfs, hw1, hw2]

/-! ## Assignment: a numeric id -/

/-- C2 (the code departs from the claim): on an authenticated
`POST /assign-student-to-class` whose body is
`{ class_id: 123, student_id: "0000000000000000000000e1" }`, the number passes
the `ObjectId.isValid` guard, `Class.findById` cannot cast it, and the answer is
500 `Internal Server Error`, neither 400 nor 404; the database is unchanged. -/
theorem assign_numeric_id_answers_500 :
    authenticateUser refLib none (some sampleToken) = .next sampleUser ∧
    refLib.isValidField (.num 123) = true ∧
    refLib.isValidField (.str "0000000000000000000000e1") = true ∧
    refLib.castField (.num 123) = none ∧
    handle refLib none ⟨300, 0, true, true⟩ sampleDb (some sampleToken)
        (.assignStudentToClass (.num 123) (.str "0000000000000000000000e1"))
      = (⟨500, .error "Internal Server Error"⟩, sampleDb) := by
  decide

/-! ## Class lookup -/

/-- C4: an authenticated `GET /classes/:classId` leaves the database unchanged and
falls in exactly one of three cases: the id is malformed and the answer is 400
`Invalid class ID`; the id is well-formed, no Class has it and the answer is 404
`Class not found`; or some Class has it and the answer is 200 with the stored
Class whose `_id` is the id. -/
theorem getClassById_cases (L : Lib) (secretKey : Option String) (nd : Nondet)
    (db : Db) (header : Option String) (u : Option UserClaim) (classId : String)
    (hauth : authenticateUser L secretKey header = .next u) :
    (handle L secretKey nd db header (.getClassById classId)).2 = db ∧
    ((L.isValid classId = false ∧
        (handle L secretKey nd db header (.getClassById classId)).1
          = ⟨400, .message "Invalid class ID"⟩) ∨
     (∃ cid, L.parseId classId = some cid ∧ (∀ c ∈ db.classes, c._id ≠ cid) ∧
        (handle L secretKey nd db header (.getClassById classId)).1
          = ⟨404, .message "Class not found"⟩) ∨
     (∃ cid c, L.parseId classId = some cid ∧ c ∈ db.classes ∧ c._id = cid ∧
        findById Class._id db.classes cid = some c ∧
        (handle L secretKey nd db header (.getClassById classId)).1 = ⟨200, .cls c⟩)) ∧
    (((handle L secretKey nd db header (.getClassById classId)).1.status = 400 ↔
        L.isValid classId = false) ∧
     ((handle L secretKey nd db header (.getClassById classId)).1.status = 404 ↔
        ∃ cid, L.parseId classId = some cid ∧ ∀ c ∈ db.classes, c._id ≠ cid) ∧
     ((handle L secretKey nd db header (.getClassById classId)).1.status = 200 ↔
        ∃ cid c, L.parseId classId = some cid ∧ c ∈ db.classes ∧ c._id = cid)) := by
  rw [handle_of_next L secretKey nd db header u (.getClassById classId) rfl hauth]
  have hr : runProtected L nd db u (.getClassById classId) = getClassById L db classId := rfl
  rw [hr, isValid_eq_false_iff]
  cases hparse : L.parseId classId with
  | none =>
    rw [getClassById_invalid L db classId hparse]
    simp
  | some cid =>
    cases hfind : findById Class._id db.classes cid with
    | none =>
      have hno := (findById_eq_none_iff _ _ _).1 hfind
      rw [getClassById_missing L db classId cid hparse hfind]
      refine ⟨rfl, Or.inr (Or.inl ⟨cid, rfl, hno, rfl⟩), by simp, ?_, ?_⟩
      · simpa using hno
      · simp only [Nat.reduceEqDiff, false_iff, not_exists, not_and]
        intro cid2 c h2 hc heq
        cases h2
        exact hno c hc heq
    | some c =>
      obtain ⟨hmem, hid⟩ := findById_some hfind
      rw [getClassById_found L db classId cid c hparse hfind]
      refine ⟨rfl, Or.inr (Or.inr ⟨cid, c, rfl, hmem, hid, hfind, rfl⟩), by simp, ?_, ?_⟩
      · simp only [Nat.reduceEqDiff, false_iff, not_exists, not_and, not_forall]
        intro cid2 h2
        cases h2
        exact ⟨c, hmem, by simpa using hid⟩
      · simp only [true_iff]
        exact ⟨cid, c, rfl, hmem, hid⟩


/-! ## Aggregate queries -/

lemma classmates_invalid (L : Lib) (db : Db) (studentId : String)
    (h : L.parseId studentId = none) :
    classmates L db studentId = (⟨400, .message "Invalid student ID"⟩, db) := by
  simp [classmates, Lib.isValid, h]

lemma classmates_missing (L : Lib) (db : Db) (studentId : String) (sid : ObjectId)
    (h : L.parseId studentId = some sid) (hf : findById Student._id db.students sid = none) :
    classmates L db studentId = (⟨404, .message "Student not found"⟩, db) := by
  simp [classmates, Lib.isValid, h, hf]

lemma classmates_found (L : Lib) (db : Db) (studentId : String) (sid : ObjectId) (t : Student)
    (h : L.parseId studentId = some sid) (hf : findById Student._id db.students sid = some t) :
    classmates L db studentId
      = (⟨200, .students (db.students.filter (fun s =>
            s._id != t._id && s.classes.any (fun i => decide (i ∈ t.classes))))⟩, db) := by
  simp [classmates, Lib.isValid, h, hf]

/-- C5: an authenticated `GET /students-in-all-classes` leaves the database
unchanged; with no Class record it returns the empty array, and otherwise it
returns exactly the Student records whose `classes` array holds the `_id` of
every Class record. -/
theorem studentsInAllClasses_exact (L : Lib) (secretKey : Option String) (nd : Nondet)
    (db : Db) (header : Option String) (u : Option UserClaim)
    (hauth : authenticateUser L secretKey header = .next u) :
    (db.classes = [] →
      handle L secretKey nd db header .studentsInAllClasses = (⟨200, .students []⟩, db)) ∧
    (db.classes ≠ [] →
      ∃ l, handle L secretKey nd db header .studentsInAllClasses = (⟨200, .students l⟩, db) ∧
        l = db.students.filter (fun s => decide (∀ c ∈ db.classes, c._id ∈ s.classes)) ∧
        ∀ s, s ∈ l ↔ s ∈ db.students ∧ ∀ c ∈ db.classes, c._id ∈ s.classes) := by
  rw [handle_of_next L secretKey nd db header u .studentsInAllClasses rfl hauth]
  have hr : runProtected L nd db u .studentsInAllClasses = studentsInAllClasses db := rfl
  rw [hr]
  constructor
  · intro h
    simp [studentsInAllClasses, h]
  · intro h
    have hlen : db.classes.length ≠ 0 := by
      intro h0
      exact h (List.length_eq_zero.1 h0)
    refine ⟨_, ?_, rfl, ?_⟩
    · have hp : (fun s : Student =>
            (db.classes.map (fun c => c._id)).all (fun i => decide (i ∈ s.classes)))
          = (fun s : Student => decide (∀ c ∈ db.classes, c._id ∈ s.classes)) := by
        funext s
        rw [Bool.eq_iff_iff]
        simp [List.all_eq_true]
      simp only [studentsInAllClasses, hlen, if_false, hp]
    · intro s
      simp [List.mem_filter]

/-- C6: on an authenticated `GET /classmates/:studentId` the database is
unchanged; a malformed id gives 400, a well-formed id of no Student gives 404,
and for an existing Student `t` the answer is exactly the Student records other
than `t` whose `classes` share at least one id with `t.classes`: `t` is not in
it, nobody sharing no class is in it, and it is empty when `t.classes` is. -/
theorem classmates_exact (L : Lib) (secretKey : Option String) (nd : Nondet)
    (db : Db) (header : Option String) (u : Option UserClaim) (studentId : String)
    (hauth : authenticateUser L secretKey header = .next u) :
    (L.isValid studentId = false →
      handle L secretKey nd db header (.classmates studentId)
        = (⟨400, .message "Invalid student ID"⟩, db)) ∧
    (∀ sid, L.parseId studentId = some sid → (∀ s ∈ db.students, s._id ≠ sid) →
      handle L secretKey nd db header (.classmates studentId)
        = (⟨404, .message "Student not found"⟩, db)) ∧
    (∀ sid t, L.parseId studentId = some sid →
      findById Student._id db.students sid = some t →
      ∃ l, handle L secretKey nd db header (.classmates studentId)
          = (⟨200, .students l⟩, db) ∧
        l = db.students.filter
          (fun s => decide (s._id ≠ t._id ∧ ∃ i ∈ s.classes, i ∈ t.classes)) ∧
        (∀ s, s ∈ l ↔ s ∈ db.students ∧ s._id ≠ t._id ∧ ∃ i ∈ s.classes, i ∈ t.classes) ∧
        t ∉ l ∧
        (∀ s ∈ db.students, (∀ i ∈ s.classes, i ∉ t.classes) → s ∉ l) ∧
        (t.classes = [] → l = [])) := by
  rw [handle_of_next L secretKey nd db header u (.classmates studentId) rfl hauth]
  have hr : runProtected L nd db u (.classmates studentId) = classmates L db studentId := rfl
  rw [hr]
  refine ⟨?_, ?_, ?_⟩
  · intro h
    exact classmates_invalid L db studentId ((isValid_eq_false_iff L _).1 h)
  · intro sid hp hno
    exact classmates_missing L db studentId sid hp ((findById_eq_none_iff _ _ _).2 hno)
  · intro sid t hp hf
    have hmemiff : ∀ s, s ∈ db.students.filter
          (fun s => decide (s._id ≠ t._id ∧ ∃ i ∈ s.classes, i ∈ t.classes)) ↔
        s ∈ db.students ∧ s._id ≠ t._id ∧ ∃ i ∈ s.classes, i ∈ t.classes := by
      intro s
      simp [List.mem_filter]
    refine ⟨_, ?_, rfl, hmemiff, ?_, ?_, ?_⟩
    · have hq : (fun s : Student =>
            s._id != t._id && s.classes.any (fun i => decide (i ∈ t.classes)))
          = (fun s : Student =>
            decide (s._id ≠ t._id ∧ ∃ i ∈ s.classes, i ∈ t.classes)) := by
        funext s
        rw [Bool.eq_iff_iff]
        simp [List.any_eq_true, bne_iff_ne]
      rw [classmates_found L db studentId sid t hp hf, hq]
    · intro hin
      exact ((hmemiff t).1 hin).2.1 rfl
    · intro s _ hdisj hin
      obtain ⟨_, _, i, hi, hit⟩ := (hmemiff s).1 hin
      exact hdisj i hi hit
    · intro hempty
      apply List.eq_nil_iff_forall_not_mem.2
      intro s hin
      obtain ⟨_, _, i, _, hit⟩ := (hmemiff s).1 hin
      rw [hempty] at hit
      exact List.not_mem_nil _ hit


/-! ## Assignment: repeated calls -/

lemma findById_updateById {α : Type} (key : α → ObjectId) (f : α → α)
    (hk : ∀ x, key (f x) = key x) (xs : List α) (id : ObjectId) :
    findById key (updateById key f xs id) id = (findById key xs id).map f := by
  induction xs with
  | nil => rfl
  | cons x xs ih =>
    by_cases h : key x = id
    · simp [updateById, findById, h, hk]
    · have ih2 : List.find? (fun x => key x == id) (updateById key f xs id)
          = Option.map f (List.find? (fun x => key x == id) xs) := ih
      simp [updateById, findById, h, ih2]

/-- C3: with Class `c` and Student `s` stored, two consecutive authenticated
`POST /assign-student-to-class` calls for them whose saves are stored both
answer 200, and afterwards
the stored class holds `s._id` exactly two more times and the stored student
holds `c._id` exactly two more times than before; the database after the second
call differs from the database after the first. -/
theorem assign_twice_duplicates (L : Lib) (secretKey : Option String) (nd1 nd2 : Nondet)
    (db : Db) (header : Option String) (u : Option UserClaim)
    (class_id student_id : IdField) (cid sid : ObjectId) (c : Class) (s : Student)
    (hauth : authenticateUser L secretKey header = .next u)
    (hc : L.castField class_id = some cid) (hs : L.castField student_id = some sid)
    (hfc : findById Class._id db.classes cid = some c)
    (hfs : findById Student._id db.students sid = some s)
    (hw1 : nd1.firstSaveOk = true ∧ nd1.secondSaveOk = true)
    (hw2 : nd2.firstSaveOk = true ∧ nd2.secondSaveOk = true) :
    ∃ db1 db2 c2 s2,
      handle L secretKey nd1 db header (.assignStudentToClass class_id student_id)
        = (⟨200, .message "Student assigned to class successfully"⟩, db1) ∧
      handle L secretKey nd2 db1 header (.assignStudentToClass class_id student_id)
        = (⟨200, .message "Student assigned to class successfully"⟩, db2) ∧
      findById Class._id db2.classes cid = some c2 ∧
      findById Student._id db2.students sid = some s2 ∧
      c2.students = c.students ++ [s._id, s._id] ∧
      s2.classes = s.classes ++ [c._id, c._id] ∧
      c2.students.count s._id = c.students.count s._id + 2 ∧
      s2.classes.count c._id = s.classes.count c._id + 2 ∧
      db2 ≠ db1 := by
  obtain ⟨_, hcid⟩ := findById_some hfc
  obtain ⟨_, hsid⟩ := findById_some hfs
  subst hcid hsid
  have e1 := assign_found L nd1 db class_id student_id _ _ c s hc hs hfc hfs hw1.1 hw1.2
  generalize hdb1 : ({ db with
      classes := updateById Class._id (Class.pushStudent s._id) db.classes c._id,
      students := updateById Student._id (Student.pushClass c._id) db.students s._id } : Db)
    = db1 at e1
  have hfc1 : findById Class._id db1.classes c._id = some (Class.pushStudent s._id c) := by
    rw [← hdb1]
    show findById Class._id (updateById Class._id _ db.classes c._id) c._id = _
    rw [findById_updateById Class._id (Class.pushStudent s._id) (fun _ => rfl), hfc]
    rfl
  have hfs1 : findById Student._id db1.students s._id = some (Student.pushClass c._id s) := by
    rw [← hdb1]
    show findById Student._id (updateById Student._id _ db.students s._id) s._id = _
    rw [findById_updateById Student._id (Student.pushClass c._id) (fun _ => rfl), hfs]
    rfl
  have e2 := assign_found L nd2 db1 class_id student_id _ _ _ _ hc hs hfc1 hfs1 hw2.1 hw2.2
  generalize hdb2 : ({ db1 with
      classes := updateById Class._id (Class.pushStudent (Student.pushClass c._id s)._id)
        db1.classes (Class.pushStudent s._id c)._id,
      students := updateById Student._id (Student.pushClass (Class.pushStudent s._id c)._id)
        db1.students (Student.pushClass c._id s)._id } : Db)
    = db2 at e2
  have hfc2 : findById Class._id db2.classes c._id
      = some (Class.pushStudent s._id (Class.pushStudent s._id c)) := by
    rw [← hdb2]
    show findById Class._id (updateById Class._id _ db1.classes c._id) c._id = _
    rw [findById_updateById Class._id (Class.pushStudent _) (fun _ => rfl), hfc1]
    rfl
  have hfs2 : findById Student._id db2.students s._id
      = some (Student.pushClass c._id (Student.pushClass c._id s)) := by
    rw [← hdb2]
    show findById Student._id (updateById Student._id _ db1.students s._id) s._id = _
    rw [findById_updateById Student._id (Student.pushClass _) (fun _ => rfl), hfs1]
    rfl
  refine ⟨db1, db2, _, _, ?_, ?_, hfc2, hfs2, ?_, ?_, ?_, ?_, ?_⟩
  · rw [handle_of_next L secretKey nd1 db header u
      (.assignStudentToClass class_id student_id) rfl hauth]
    exact e1
  · rw [handle_of_next L secretKey nd2 db1 header u
      (.assignStudentToClass class_id student_id) rfl hauth]
    exact e2
  · simp [Class.pushStudent]
  · simp [Student.pushClass]
  · simp [Class.pushStudent]
  · simp [Student.pushClass]
  · intro heq
    rw [heq, hfc1] at hfc2
    have := congrArg (fun o : Option Class => o.map (fun c => c.students.length)) hfc2
    simp [Class.pushStudent] at this


/-! ## Laws of the reference library -/

lemma dropWhile_dollars (n : Nat) (l : List Char) :
    (List.replicate n '$' ++ '#' :: l).dropWhile (fun c => c == '$') = '#' :: l := by
  induction n with
  | zero =>
    have h : ('#' == '$') = false := by decide
    simp [List.dropWhile, h]
  | succ n ih =>
    simp [List.replicate_succ, List.dropWhile, ih]

lemma refLib_compare_hash (p : String) (salt : Nat) :
    refLib.bcryptCompare p (refLib.bcryptHash p salt) = true := by
  show refCompare p (refHash p salt) = true
  simp [refCompare, refHash, dropWhile_dollars]

lemma refLib_sign_ne_empty (p : Payload) (k : String) : refLib.jwtSign p k ≠ "" := by
  show refSign p k ≠ ""
  intro h
  have := congrArg String.data h
  simp [refSign, keyTag] at this

lemma dropTag_append (tag l : List Char) : dropTag tag (tag ++ l) = some l := by
  induction tag with
  | nil => rfl
  | cons a tag ih => simp [dropTag, ih]

lemma dropTag_eq_some {tag l r : List Char} (h : dropTag tag l = some r) : l = tag ++ r := by
  induction tag generalizing l with
  | nil => simpa [dropTag] using h
  | cons a tag ih =>
    cases l with
    | nil => simp [dropTag] at h
    | cons b l =>
      by_cases hab : a = b
      · subst hab
        simp only [dropTag, if_true] at h
        simp [ih h]
      · simp [dropTag, hab] at h

lemma replicate_tag_inj (n m : Nat) (r1 r2 : List Char)
    (h : List.replicate n 'x' ++ '.' :: r1 = List.replicate m 'x' ++ '.' :: r2) :
    n = m ∧ r1 = r2 := by
  induction n generalizing m with
  | zero =>
    cases m with
    | zero => simpa using h
    | succ m =>
      have hx : ('.' : Char) ≠ 'x' := by decide
      simp only [List.replicate_succ, List.replicate_zero, List.nil_append, List.cons_append,
        List.cons.injEq] at h
      exact absurd h.1 hx
  | succ n ih =>
    cases m with
    | zero =>
      have hx : ('x' : Char) ≠ '.' := by decide
      simp only [List.replicate_succ, List.replicate_zero, List.nil_append, List.cons_append,
        List.cons.injEq] at h
      exact absurd h.1 hx
    | succ m =>
      simp only [List.replicate_succ, List.cons_append, List.cons.injEq, true_and] at h
      obtain ⟨hnm, hr⟩ := ih m h
      exact ⟨by rw [hnm], hr⟩

lemma keyTag_inj (k k2 : String) (b d : List Char)
    (h : keyTag k ++ b = keyTag k2 ++ d) : k = k2 ∧ b = d := by
  unfold keyTag at h
  simp only [List.append_assoc, List.cons_append] at h
  obtain ⟨hlen, hr⟩ := replicate_tag_inj _ _ _ _ h
  obtain ⟨h1, h2⟩ := List.append_inj hr hlen
  exact ⟨String.ext h1, h2⟩

lemma decode_encode (p : Payload) : decodePayload (encodePayload p) = some p := by
  rcases p with ⟨_ | ⟨_ | i⟩⟩ <;> simp [encodePayload, decodePayload]

lemma refLib_verify_sign (p : Payload) (k k2 : String) :
    (refLib.jwtVerify (refLib.jwtSign p k) k2).isSome = true ↔ k = k2 := by
  show (refVerify (refSign p k) k2).isSome = true ↔ k = k2
  constructor
  · intro h
    unfold refVerify at h
    cases hd : dropTag (keyTag k2) (refSign p k).data with
    | none => simp [hd] at h
    | some rest =>
      have := dropTag_eq_some hd
      exact (keyTag_inj k k2 _ _ this).1
  · intro h
    subst h
    simp [refVerify, refSign, dropTag_append, decode_encode]


/-! ## Signup, then login -/

lemma signup_ok_users (L : Lib) (nd : Nondet) (db : Db)
    (name email password pic tic file : Option String)
    (h : (signup L nd db name email password pic tic file).1.status = 200) :
    ∃ pw, password = some pw ∧
      (signup L nd db name email password pic tic file).2 =
        { db with users := db.users ++
            [{ _id := nd.newId, name := name, email := email,
               password := some (L.bcryptHash pw nd.salt), photo := file,
               parentInviteCode := pic, teacherInviteCode := tic, role := some "student" }] } := by
  cases password with
  | none => simp [signup, internalErrorMessage] at h
  | some pw =>
    refine ⟨pw, rfl, ?_⟩
    unfold signup insertDoc at h ⊢
    by_cases hw : nd.firstSaveOk = true
    · by_cases hany : db.users.any (fun x => x._id == nd.newId) = true
      · simp [hw, hany, internalErrorMessage] at h
      · simp [hw, hany]
    · simp [hw, internalErrorMessage] at h

/-- C7 (as stated, refuted): starting from the empty database, a first signup
with email `a@b.com` and a second, successful signup with the same email and
password `pw123` are followed by a login with `a@b.com` / `pw123` that is
answered 401 `Invalid credentials`: the lookup by email returns the first
account. -/
theorem second_signup_same_email_cannot_login :
    (handle refLib none ⟨1, 0, true, true⟩ Db.empty none
      (.signup (some "first") (some "a@b.com") (some "other") none none none)).1.status = 200 ∧
    (handle refLib none ⟨2, 0, true, true⟩
      (handle refLib none ⟨1, 0, true, true⟩ Db.empty none
        (.signup (some "first") (some "a@b.com") (some "other") none none none)).2 none
      (.signup (some "second") (some "a@b.com") (some "pw123") none none none)).1.status = 200 ∧
    (handle refLib none ⟨3, 0, true, true⟩
      (handle refLib none ⟨2, 0, true, true⟩
        (handle refLib none ⟨1, 0, true, true⟩ Db.empty none
          (.signup (some "first") (some "a@b.com") (some "other") none none none)).2 none
        (.signup (some "second") (some "a@b.com") (some "pw123") none none none)).2 none
      (.login (some "a@b.com") (some "pw123"))).1
      = ⟨401, .message "Invalid credentials"⟩ := by
  decide

/-- C7 (amended): for a library whose `compare(p, hash(p))` holds and whose
tokens are non-empty, after a successful `POST /api/signup` with name, email and
password, `POST /api/login` with the same email and plaintext password answers
200 with a non-empty token and a user object without password, provided the
first User already stored under that email, if there is one, has a stored hash
that the plaintext compares true against (in particular whenever no User has
that email before the signup). -/
theorem login_after_signup (L : Lib) (secretKey : Option String) (nd nd2 : Nondet) (db : Db)
    (header header2 : Option String) (name email pw : String) (pic tic file : Option String)
    (hb : ∀ p salt, L.bcryptCompare p (L.bcryptHash p salt) = true)
    (hj : ∀ p k, L.jwtSign p k ≠ "")
    (hok : (handle L secretKey nd db header
      (.signup (some name) (some email) (some pw) pic tic file)).1.status = 200)
    (hfirst : ∀ x, db.users.find? (fun x => x.email == some email) = some x →
      ∃ stored, x.password = some stored ∧ L.bcryptCompare pw stored = true) :
    ∃ user token,
      handle L secretKey nd2
        (handle L secretKey nd db header
          (.signup (some name) (some email) (some pw) pic tic file)).2 header2
        (.login (some email) (some pw))
      = (⟨200, .loggedIn "Login successful" user token⟩,
          (handle L secretKey nd db header
            (.signup (some name) (some email) (some pw) pic tic file)).2) ∧
      token ≠ "" ∧ user.password = none := by
  have hs : handle L secretKey nd db header
      (.signup (some name) (some email) (some pw) pic tic file)
      = signup L nd db (some name) (some email) (some pw) pic tic file := rfl
  rw [hs] at hok ⊢
  obtain ⟨pw2, hpw, hdb⟩ := signup_ok_users L nd db _ _ _ _ _ _ hok
  cases hpw
  rw [hdb]
  show ∃ user token, login L _ (some email) (some pw) = _ ∧ _
  unfold login
  simp only [List.find?_append]
  cases hfind : db.users.find? (fun x => x.email == some email) with
  | none =>
    simp only [Option.none_or, List.find?_cons, beq_self_eq_true, hb, if_true]
    exact ⟨_, _, rfl, hj _ _, rfl⟩
  | some x =>
    obtain ⟨stored, hst, hcmp⟩ := hfirst x hfind
    simp only [Option.or_some, hst, hcmp, if_true]
    exact ⟨_, _, rfl, hj _ _, rfl⟩

/-- Witness for `login_after_signup`: the spec's example, `a@b.com` / `pw123`
on the empty database. -/
theorem login_after_signup_witness :
    (handle refLib none ⟨1, 5, true, true⟩ Db.empty none
      (.signup (some "Ann") (some "a@b.com") (some "pw123") none none none)).1.status = 200 ∧
    ∃ user token,
      handle refLib none ⟨2, 0, true, true⟩
        (handle refLib none ⟨1, 5, true, true⟩ Db.empty none
          (.signup (some "Ann") (some "a@b.com") (some "pw123") none none none)).2 none
        (.login (some "a@b.com") (some "pw123"))
      = (⟨200, .loggedIn "Login successful" user token⟩,
          (handle refLib none ⟨1, 5, true, true⟩ Db.empty none
            (.signup (some "Ann") (some "a@b.com") (some "pw123") none none none)).2) ∧
      token ≠ "" ∧ user.password = none :=
  ⟨by decide,
   login_after_signup refLib none ⟨1, 5, true, true⟩ ⟨2, 0, true, true⟩ Db.empty none none "Ann" "a@b.com" "pw123"
    none none none refLib_compare_hash refLib_sign_ne_empty (by decide)
    (by intro x hx; simp [Db.empty] at hx)⟩


/-! ## The two token secrets -/

lemma login_token (L : Lib) (db db2 : Db) (email password : Option String)
    (m : String) (user : UserObject) (token : String)
    (h : login L db email password = (⟨200, .loggedIn m user token⟩, db2)) :
    ∃ p, token = L.jwtSign p "secret_key" := by
  unfold login at h
  cases hf : db.users.find? (fun u => u.email == email) with
  | none => simp [hf] at h
  | some x =>
    rw [hf] at h
    cases password with
    | none => simp [internalErrorMessage] at h
    | some pw =>
      cases hx : x.password with
      | none => simp [hx, internalErrorMessage] at h
      | some stored =>
        by_cases hc : L.bcryptCompare pw stored = true
        · simp only [hx, hc, if_true, Prod.mk.injEq, Response.mk.injEq, Body.loggedIn.injEq] at h
          exact ⟨_, h.1.2.2.2.symm⟩
        · simp [hx, hc] at h

lemma verifySecret_ne (secretKey : Option String) (h : secretKey ≠ some "secret_key") :
    "secret_key" ≠ verifySecret secretKey := by
  unfold verifySecret
  cases secretKey with
  | none => decide
  | some k =>
    by_cases hk : k = ""
    · simp only [hk, if_true]
      decide
    · simp only [hk, if_false]
      intro hh
      exact h (by rw [hh])

/-- C8: `login` signs with the literal `secret_key`, `authenticateUser` verifies
with `process.env.SECRET_KEY || 'default_secret_key'`.  For a library where
`verify(sign(p, k), k')` succeeds exactly when `k = k'` (and tokens are
non-empty), whenever `SECRET_KEY` is not `secret_key`, the token of any
successful login is answered 401 `Invalid token` on every auth-protected route,
with the database unchanged. -/
theorem login_token_rejected (L : Lib) (secretKey : Option String) (nd nd2 : Nondet)
    (db db1 db2 : Db) (header : Option String) (email password : Option String)
    (m : String) (user : UserObject) (token : String) (req : Request)
    (hj : ∀ p k k2, (L.jwtVerify (L.jwtSign p k) k2).isSome = true ↔ k = k2)
    (hne : ∀ p k, L.jwtSign p k ≠ "")
    (hkey : secretKey ≠ some "secret_key")
    (hp : req.isProtected = true)
    (hlogin : handle L secretKey nd db header (.login email password)
      = (⟨200, .loggedIn m user token⟩, db1)) :
    authenticateUser L secretKey (some token) = .respond ⟨401, .message "Invalid token"⟩ ∧
    handle L secretKey nd2 db2 (some token) req = (⟨401, .message "Invalid token"⟩, db2) := by
  obtain ⟨p, rfl⟩ := login_token L db db1 email password m user token hlogin
  have hv : L.jwtVerify (L.jwtSign p "secret_key") (verifySecret secretKey) = none := by
    have := (hj p "secret_key" (verifySecret secretKey)).not.2 (verifySecret_ne secretKey hkey)
    simpa using this
  have ha : authenticateUser L secretKey (some (L.jwtSign p "secret_key"))
      = .respond ⟨401, .message "Invalid token"⟩ := by
    simp [authenticateUser, hne, hv]
  exact ⟨ha, handle_of_respond L secretKey nd2 db2 _ _ req hp ha⟩

/-! ## The schools of a user -/

/-- C9 (as stated, refuted): a verified token whose user id `abc` matches no
User (it is not a well-formed ObjectId, and the collection is empty) is answered
500 on `GET /my-schools`, not 404. -/
theorem mySchools_malformed_user_id :
    authenticateUser refLib none
      (some (refLib.jwtSign ⟨some ⟨some "abc"⟩⟩ "default_secret_key"))
      = .next (some ⟨some "abc"⟩) ∧
    (∀ x ∈ Db.empty.users, refLib.parseId "abc" ≠ some x._id) ∧
    handle refLib none ⟨0, 0, true, true⟩ Db.empty
      (some (refLib.jwtSign ⟨some ⟨some "abc"⟩⟩ "default_secret_key")) .mySchools
      = (⟨500, .error "Internal Server Error"⟩, Db.empty) := by
  decide

/-- C9 (amended): on an authenticated `GET /my-schools` the database is
unchanged; a token without user id (or with an empty one) gives 401; a
well-formed user id that matches no User gives 404; for an existing User with
role `student` or `teacher` the schools list is empty whatever Schools are
stored, and for every other role it is the list of all stored Schools. -/
theorem mySchools_cases (L : Lib) (secretKey : Option String) (nd : Nondet) (db : Db)
    (header : Option String) (reqUser : Option UserClaim)
    (hauth : authenticateUser L secretKey header = .next reqUser) :
    ((reqUser.bind (fun c => c.id) = none ∨ reqUser.bind (fun c => c.id) = some "") →
      handle L secretKey nd db header .mySchools = (⟨401, .message "Unauthorized"⟩, db)) ∧
    (∀ raw uid, reqUser.bind (fun c => c.id) = some raw → raw ≠ "" →
      L.parseId raw = some uid → (∀ x ∈ db.users, x._id ≠ uid) →
      handle L secretKey nd db header .mySchools = (⟨404, .message "User not found"⟩, db)) ∧
    (∀ raw uid user, reqUser.bind (fun c => c.id) = some raw → raw ≠ "" →
      L.parseId raw = some uid → findById User._id db.users uid = some user →
      ((user.role = some "student" ∨ user.role = some "teacher") →
        handle L secretKey nd db header .mySchools = (⟨200, .schools []⟩, db)) ∧
      (¬ (user.role = some "student" ∨ user.role = some "teacher") →
        handle L secretKey nd db header .mySchools = (⟨200, .schools db.schools⟩, db))) := by
  rw [handle_of_next L secretKey nd db header reqUser .mySchools rfl hauth]
  have hr : runProtected L nd db reqUser .mySchools = mySchools L db reqUser := rfl
  rw [hr]
  refine ⟨?_, ?_, ?_⟩
  · intro h
    rcases h with h | h <;> simp [mySchools, h]
  · intro raw uid hraw hne hparse hno
    have hf := (findById_eq_none_iff User._id db.users uid).2 hno
    simp [mySchools, hraw, hne, hparse, hf]
  · intro raw uid user hraw hne hparse hf
    constructor
    · intro hrole
      simp [mySchools, hraw, hne, hparse, hf, hrole, User.classes, findSchoolsIn]
    · intro hrole
      simp [mySchools, hraw, hne, hparse, hf, hrole]


/-! ## The link invariant -/

lemma map_key_updateById {α : Type} (key : α → ObjectId) (f : α → α)
    (hk : ∀ x, key (f x) = key x) (xs : List α) (id : ObjectId) :
    (updateById key f xs id).map key = xs.map key := by
  induction xs with
  | nil => rfl
  | cons x xs ih =>
    by_cases h : key x = id
    · simp [updateById, h, hk]
    · simp [updateById, h, ih]

lemma updateById_eq_map {α : Type} (key : α → ObjectId) (f : α → α) (xs : List α)
    (id : ObjectId) (hnd : (xs.map key).Nodup) :
    updateById key f xs id = xs.map (fun x => if key x = id then f x else x) := by
  induction xs with
  | nil => rfl
  | cons x xs ih =>
    rw [List.map_cons, List.nodup_cons] at hnd
    by_cases h : key x = id
    · have hrest : xs.map (fun x => if key x = id then f x else x) = xs := by
        conv_rhs => rw [← List.map_id xs]
        apply List.map_congr_left
        intro y hy
        have : key y ≠ id := by
          intro hyid
          exact hnd.1 (by rw [h, ← hyid]; exact List.mem_map_of_mem key hy)
        simp [this]
      simp [updateById, h, hrest]
    · simp [updateById, h, ih hnd.2]

lemma insertDoc_eq_some {α : Type} {key : α → ObjectId} {xs ys : List α} {d : α}
    (h : insertDoc key xs d = some ys) : ys = xs ++ [d] ∧ ∀ x ∈ xs, key x ≠ key d := by
  unfold insertDoc at h
  by_cases hany : xs.any (fun x => key x == key d) = true
  · simp [hany] at h
  · simp only [hany, Bool.false_eq_true, if_false, Option.some.injEq] at h
    refine ⟨h.symm, ?_⟩
    intro x hx heq
    apply hany
    rw [List.any_eq_true]
    exact ⟨x, hx, by simpa using heq⟩

lemma createClass_db (nd : Nondet) (db : Db) (name : Option String) :
    (createClass nd db name).2 = db ∨
    ((∀ c ∈ db.classes, c._id ≠ nd.newId) ∧
      (createClass nd db name).2
        = { db with classes := db.classes ++ [⟨nd.newId, name, []⟩] }) := by
  unfold createClass
  by_cases hw : nd.firstSaveOk = true
  · cases hins : insertDoc Class._id db.classes ⟨nd.newId, name, []⟩ with
    | none => left; simp [hw, hins]
    | some ys =>
      obtain ⟨rfl, hfresh⟩ := insertDoc_eq_some hins
      right
      exact ⟨hfresh, by simp [hw, hins]⟩
  · left; simp [hw]

lemma createStudent_db (nd : Nondet) (db : Db) (name file : Option String) :
    (createStudent nd db name file).2 = db ∨
    ((∀ s ∈ db.students, s._id ≠ nd.newId) ∧
      (createStudent nd db name file).2
        = { db with students := db.students ++ [⟨nd.newId, name, file, []⟩] }) := by
  unfold createStudent
  by_cases hw : nd.firstSaveOk = true
  · cases hins : insertDoc Student._id db.students ⟨nd.newId, name, file, []⟩ with
    | none => left; simp [hw, hins]
    | some ys =>
      obtain ⟨rfl, hfresh⟩ := insertDoc_eq_some hins
      right
      exact ⟨hfresh, by simp [hw, hins]⟩
  · left; simp [hw]

lemma createClass_inv (R : Nat → Nat → Prop) (hR : R 0 0) (nd : Nondet) (db : Db)
    (name : Option String)
    (h : UniqueIds db ∧ LinkRel R db ∧ NoDangling db) :
    UniqueIds (createClass nd db name).2 ∧ LinkRel R (createClass nd db name).2 ∧
      NoDangling (createClass nd db name).2 := by
  rcases createClass_db nd db name with he | ⟨hfresh, he⟩
  · rw [he]; exact h
  · rw [he]
    obtain ⟨⟨hu1, hu2⟩, hsym, hd1, hd2⟩ := h
    refine ⟨⟨?_, hu2⟩, ?_, ?_, ?_⟩
    · show ((db.classes ++ [(⟨nd.newId, name, []⟩ : Class)]).map Class._id).Nodup
      rw [List.map_append, List.nodup_append]
      refine ⟨hu1, by simp, ?_⟩
      intro a ha hb
      simp only [List.map_cons, List.map_nil, List.mem_singleton] at hb
      obtain ⟨c, hc, rfl⟩ := List.mem_map.1 ha
      exact hfresh c hc hb
    · intro c hc s hs
      change c ∈ db.classes ++ [_] at hc
      change s ∈ db.students at hs
      rcases List.mem_append.1 hc with hc | hc
      · exact hsym c hc s hs
      · rw [List.mem_singleton] at hc
        subst hc
        have : nd.newId ∉ s.classes := by
          intro hin
          obtain ⟨c, hc, hcid⟩ := hd2 s hs _ hin
          exact hfresh c hc hcid
        show R (List.count s._id []) (List.count nd.newId s.classes)
        rw [List.count_nil, List.count_eq_zero_of_not_mem this]
        exact hR
    · intro c hc i hi
      change c ∈ db.classes ++ [_] at hc
      rcases List.mem_append.1 hc with hc | hc
      · exact hd1 c hc i hi
      · rw [List.mem_singleton] at hc
        subst hc
        simp at hi
    · intro s hs i hi
      obtain ⟨c, hc, hcid⟩ := hd2 s hs i hi
      exact ⟨c, List.mem_append_left _ hc, hcid⟩

lemma createStudent_inv (R : Nat → Nat → Prop) (hR : R 0 0) (nd : Nondet) (db : Db)
    (name file : Option String)
    (h : UniqueIds db ∧ LinkRel R db ∧ NoDangling db) :
    UniqueIds (createStudent nd db name file).2 ∧
      LinkRel R (createStudent nd db name file).2 ∧
      NoDangling (createStudent nd db name file).2 := by
  rcases createStudent_db nd db name file with he | ⟨hfresh, he⟩
  · rw [he]; exact h
  · rw [he]
    obtain ⟨⟨hu1, hu2⟩, hsym, hd1, hd2⟩ := h
    refine ⟨⟨hu1, ?_⟩, ?_, ?_, ?_⟩
    · show ((db.students ++ [(⟨nd.newId, name, file, []⟩ : Student)]).map Student._id).Nodup
      rw [List.map_append, List.nodup_append]
      refine ⟨hu2, by simp, ?_⟩
      intro a ha hb
      simp only [List.map_cons, List.map_nil, List.mem_singleton] at hb
      obtain ⟨s, hs, rfl⟩ := List.mem_map.1 ha
      exact hfresh s hs hb
    · intro c hc s hs
      change c ∈ db.classes at hc
      change s ∈ db.students ++ [_] at hs
      rcases List.mem_append.1 hs with hs | hs
      · exact hsym c hc s hs
      · rw [List.mem_singleton] at hs
        subst hs
        have : nd.newId ∉ c.students := by
          intro hin
          obtain ⟨s, hs, hsid⟩ := hd1 c hc _ hin
          exact hfresh s hs hsid
        show R (List.count nd.newId c.students) (List.count c._id [])
        rw [List.count_nil, List.count_eq_zero_of_not_mem this]
        exact hR
    · intro c hc i hi
      obtain ⟨s, hs, hsid⟩ := hd1 c hc i hi
      exact ⟨s, List.mem_append_left _ hs, hsid⟩
    · intro s hs i hi
      change s ∈ db.students ++ [_] at hs
      rcases List.mem_append.1 hs with hs | hs
      · exact hd2 s hs i hi
      · rw [List.mem_singleton] at hs
        subst hs
        simp at hi

/-- The three ways an assignment leaves the database: unchanged, class save
only (the storage cuts it), or both saves. -/
lemma assign_db (L : Lib) (nd : Nondet) (db : Db) (class_id student_id : IdField) :
    (assignStudentToClass L nd db class_id student_id).2 = db ∨
    (∃ c s, c ∈ db.classes ∧ s ∈ db.students ∧
      ({ db with
          classes := updateById Class._id (Class.pushStudent s._id) db.classes c._id } : Db)
        ≠ db ∧
      assignStudentToClass L nd db class_id student_id
        = (internalError,
          { db with
            classes := updateById Class._id (Class.pushStudent s._id) db.classes c._id })) ∨
    (∃ c s, c ∈ db.classes ∧ s ∈ db.students ∧
      (assignStudentToClass L nd db class_id student_id).2
        = { db with
            classes := updateById Class._id (Class.pushStudent s._id) db.classes c._id,
            students := updateById Student._id (Student.pushClass c._id) db.students s._id }) := by
  cases hv1 : L.isValidField class_id with
  | false => left; rw [assign_invalid L nd db class_id student_id (Or.inl hv1)]
  | true =>
    cases hv2 : L.isValidField student_id with
    | false => left; rw [assign_invalid L nd db class_id student_id (Or.inr hv2)]
    | true =>
      cases hc : L.castField class_id with
      | none => left; rw [assign_cast_error L nd db class_id student_id hv1 hv2 (Or.inl hc)]
      | some cid =>
        cases hs : L.castField student_id with
        | none => left; rw [assign_cast_error L nd db class_id student_id hv1 hv2 (Or.inr hs)]
        | some sid =>
          cases hfc : findById Class._id db.classes cid with
          | none =>
            left
            rw [assign_missing L nd db class_id student_id cid sid hc hs (Or.inl hfc)]
          | some c =>
            cases hfs : findById Student._id db.students sid with
            | none =>
              left
              rw [assign_missing L nd db class_id student_id cid sid hc hs (Or.inr hfs)]
            | some s =>
              cases hw1 : nd.firstSaveOk with
              | false =>
                left
                rw [assign_rejected L nd db class_id student_id cid sid c s hc hs hfc hfs hw1]
              | true =>
                cases hw2 : nd.secondSaveOk with
                | false =>
                  right; left
                  refine ⟨c, s, (findById_some hfc).1, (findById_some hfs).1, ?_,
                    assign_cut L nd db class_id student_id cid sid c s hc hs hfc hfs hw1 hw2⟩
                  intro heq
                  have hcl := congrArg Db.classes heq
                  simp only at hcl
                  have hf := findById_updateById Class._id (Class.pushStudent s._id)
                    (fun _ => rfl) db.classes c._id
                  rw [hcl, (findById_some hfc).2, hfc] at hf
                  have hlen := congrArg (fun o : Option Class =>
                    o.map (fun c => c.students.length)) hf
                  simp [Class.pushStudent] at hlen
                | true =>
                  right; right
                  refine ⟨c, s, (findById_some hfc).1, (findById_some hfs).1, ?_⟩
                  rw [assign_found L nd db class_id student_id cid sid c s hc hs hfc hfs
                    hw1 hw2]

lemma count_pushStudent (c c0 : Class) (s s0 : Student) :
    (if c0._id = c._id then Class.pushStudent s._id c0 else c0).students.count s0._id
      = c0.students.count s0._id + (if c0._id = c._id ∧ s0._id = s._id then 1 else 0) := by
  by_cases h1 : c0._id = c._id
  · by_cases h2 : s._id = s0._id
    · simp [h1, h2, Class.pushStudent, List.count_append]
    · have h2b : ¬ s0._id = s._id := fun h => h2 h.symm
      simp [h1, h2, h2b, Class.pushStudent, List.count_append, List.count_singleton]
  · simp [h1]

lemma count_pushClass (c c0 : Class) (s s0 : Student) :
    (if s0._id = s._id then Student.pushClass c._id s0 else s0).classes.count c0._id
      = s0.classes.count c0._id + (if c0._id = c._id ∧ s0._id = s._id then 1 else 0) := by
  by_cases h2 : s0._id = s._id
  · by_cases h1 : c._id = c0._id
    · simp [h1, h2, Student.pushClass, List.count_append]
    · have h1b : ¬ c0._id = c._id := fun h => h1 h.symm
      simp [h1, h1b, h2, Student.pushClass, List.count_append, List.count_singleton]
  · simp [h2]

/-- Both saves of an assignment keep unique ids, any link relation that is
stable under adding the same number on both sides, and the absence of
dangling ids. -/
lemma assign_both_inv (R : Nat → Nat → Prop) (hR : ∀ a b k, R a b → R (a + k) (b + k))
    (db : Db) (c : Class) (s : Student) (hcm : c ∈ db.classes) (hsm : s ∈ db.students)
    (h : UniqueIds db ∧ LinkRel R db ∧ NoDangling db) :
    UniqueIds { db with
        classes := updateById Class._id (Class.pushStudent s._id) db.classes c._id,
        students := updateById Student._id (Student.pushClass c._id) db.students s._id } ∧
    LinkRel R { db with
        classes := updateById Class._id (Class.pushStudent s._id) db.classes c._id,
        students := updateById Student._id (Student.pushClass c._id) db.students s._id } ∧
    NoDangling { db with
        classes := updateById Class._id (Class.pushStudent s._id) db.classes c._id,
        students := updateById Student._id (Student.pushClass c._id) db.students s._id } := by
  obtain ⟨⟨hu1, hu2⟩, hsym, hd1, hd2⟩ := h
  have ec := updateById_eq_map Class._id (Class.pushStudent s._id) db.classes c._id hu1
  have es := updateById_eq_map Student._id (Student.pushClass c._id) db.students s._id hu2
  have gcid : ∀ c0 : Class,
      (if c0._id = c._id then Class.pushStudent s._id c0 else c0)._id = c0._id := by
    intro c0; split <;> rfl
  have gsid : ∀ s0 : Student,
      (if s0._id = s._id then Student.pushClass c._id s0 else s0)._id = s0._id := by
    intro s0; split <;> rfl
  refine ⟨⟨?_, ?_⟩, ?_, ?_, ?_⟩
  · show ((updateById Class._id (Class.pushStudent s._id) db.classes c._id).map Class._id).Nodup
    rw [map_key_updateById Class._id (Class.pushStudent s._id) (fun _ => rfl)]
    exact hu1
  · show ((updateById Student._id (Student.pushClass c._id) db.students s._id).map
      Student._id).Nodup
    rw [map_key_updateById Student._id (Student.pushClass c._id) (fun _ => rfl)]
    exact hu2
  · intro c1 hc1 s1 hs1
    change c1 ∈ updateById Class._id (Class.pushStudent s._id) db.classes c._id at hc1
    change s1 ∈ updateById Student._id (Student.pushClass c._id) db.students s._id at hs1
    rw [ec] at hc1
    rw [es] at hs1
    obtain ⟨c0, hc0, rfl⟩ := List.mem_map.1 hc1
    obtain ⟨s0, hs0, rfl⟩ := List.mem_map.1 hs1
    rw [gcid, gsid, count_pushStudent, count_pushClass]
    exact hR _ _ _ (hsym c0 hc0 s0 hs0)
  · intro c1 hc1 i hi
    change c1 ∈ updateById Class._id (Class.pushStudent s._id) db.classes c._id at hc1
    show ∃ s1 ∈ updateById Student._id (Student.pushClass c._id) db.students s._id, s1._id = i
    rw [ec] at hc1
    rw [es]
    obtain ⟨c0, hc0, rfl⟩ := List.mem_map.1 hc1
    have hcase : i ∈ c0.students ∨ i = s._id := by
      by_cases h1 : c0._id = c._id
      · simpa [h1, Class.pushStudent] using hi
      · left; simpa [h1] using hi
    rcases hcase with hi0 | rfl
    · obtain ⟨s0, hs0, hid⟩ := hd1 c0 hc0 i hi0
      exact ⟨_, List.mem_map_of_mem _ hs0, by rw [gsid, hid]⟩
    · exact ⟨_, List.mem_map_of_mem _ hsm, by rw [gsid]⟩
  · intro s1 hs1 i hi
    change s1 ∈ updateById Student._id (Student.pushClass c._id) db.students s._id at hs1
    show ∃ c1 ∈ updateById Class._id (Class.pushStudent s._id) db.classes c._id, c1._id = i
    rw [es] at hs1
    rw [ec]
    obtain ⟨s0, hs0, rfl⟩ := List.mem_map.1 hs1
    have hcase : i ∈ s0.classes ∨ i = c._id := by
      by_cases h1 : s0._id = s._id
      · simpa [h1, Student.pushClass] using hi
      · left; simpa [h1] using hi
    rcases hcase with hi0 | rfl
    · obtain ⟨c0, hc0, hid⟩ := hd2 s0 hs0 i hi0
      exact ⟨_, List.mem_map_of_mem _ hc0, by rw [gcid, hid]⟩
    · exact ⟨_, List.mem_map_of_mem _ hcm, by rw [gcid]⟩

/-- The class save alone keeps unique ids, the bound of student-side counts by
class-side counts, and the absence of dangling ids. -/
lemma assign_cut_inv (db : Db) (c : Class) (s : Student) (hsm : s ∈ db.students)
    (h : UniqueIds db ∧ LinkBounded db ∧ NoDangling db) :
    UniqueIds { db with
        classes := updateById Class._id (Class.pushStudent s._id) db.classes c._id } ∧
    LinkBounded { db with
        classes := updateById Class._id (Class.pushStudent s._id) db.classes c._id } ∧
    NoDangling { db with
        classes := updateById Class._id (Class.pushStudent s._id) db.classes c._id } := by
  obtain ⟨⟨hu1, hu2⟩, hbd, hd1, hd2⟩ := h
  have ec := updateById_eq_map Class._id (Class.pushStudent s._id) db.classes c._id hu1
  have gcid : ∀ c0 : Class,
      (if c0._id = c._id then Class.pushStudent s._id c0 else c0)._id = c0._id := by
    intro c0; split <;> rfl
  refine ⟨⟨?_, hu2⟩, ?_, ?_, ?_⟩
  · show ((updateById Class._id (Class.pushStudent s._id) db.classes c._id).map Class._id).Nodup
    rw [map_key_updateById Class._id (Class.pushStudent s._id) (fun _ => rfl)]
    exact hu1
  · intro c1 hc1 s0 hs0
    change c1 ∈ updateById Class._id (Class.pushStudent s._id) db.classes c._id at hc1
    change s0 ∈ db.students at hs0
    rw [ec] at hc1
    obtain ⟨c0, hc0, rfl⟩ := List.mem_map.1 hc1
    rw [gcid, count_pushStudent]
    exact Nat.le_trans (hbd c0 hc0 s0 hs0) (Nat.le_add_right _ _)
  · intro c1 hc1 i hi
    change c1 ∈ updateById Class._id (Class.pushStudent s._id) db.classes c._id at hc1
    show ∃ s1 ∈ db.students, s1._id = i
    rw [ec] at hc1
    obtain ⟨c0, hc0, rfl⟩ := List.mem_map.1 hc1
    have hcase : i ∈ c0.students ∨ i = s._id := by
      by_cases h1 : c0._id = c._id
      · simpa [h1, Class.pushStudent] using hi
      · left; simpa [h1] using hi
    rcases hcase with hi0 | rfl
    · exact hd1 c0 hc0 i hi0
    · exact ⟨s, hsm, rfl⟩
  · intro s1 hs1 i hi
    change s1 ∈ db.students at hs1
    show ∃ c1 ∈ updateById Class._id (Class.pushStudent s._id) db.classes c._id, c1._id = i
    rw [ec]
    obtain ⟨c0, hc0, hid⟩ := hd2 s1 hs1 i hi
    exact ⟨_, List.mem_map_of_mem _ hc0, by rw [gcid, hid]⟩

/-- One link request keeps the general invariant: unique ids, bounded links and
no dangling ids. -/
lemma handle_linkOp_bounded (L : Lib) (secretKey : Option String) (nd : Nondet) (db : Db)
    (header : Option String) (req : Request) (hreq : req.isLinkOp = true)
    (h : UniqueIds db ∧ LinkBounded db ∧ NoDangling db) :
    UniqueIds (handle L secretKey nd db header req).2 ∧
      LinkBounded (handle L secretKey nd db header req).2 ∧
      NoDangling (handle L secretKey nd db header req).2 := by
  have hp : req.isProtected = true := by
    cases req <;> simp [Request.isLinkOp] at hreq <;> rfl
  cases hauth : authenticateUser L secretKey header with
  | respond r =>
    rw [handle_of_respond L secretKey nd db header r req hp hauth]
    exact h
  | next u =>
    rw [handle_of_next L secretKey nd db header u req hp hauth]
    cases req <;> simp [Request.isLinkOp] at hreq
    · exact createClass_inv (fun a b => b ≤ a) (Nat.le_refl 0) nd db _ h
    · exact createStudent_inv (fun a b => b ≤ a) (Nat.le_refl 0) nd db _ _ h
    · rename_i class_id student_id
      have hrp : runProtected L nd db u (.assignStudentToClass class_id student_id)
          = assignStudentToClass L nd db class_id student_id := rfl
      rw [hrp]
      rcases assign_db L nd db class_id student_id with he | ⟨c, s, _, hsm, _, he⟩ |
        ⟨c, s, hcm, hsm, he⟩
      · rw [he]; exact h
      · rw [he]; exact assign_cut_inv db c s hsm h
      · rw [he]
        exact assign_both_inv (fun a b => b ≤ a)
          (fun a b k hab => Nat.add_le_add_right hab k) db c s hcm hsm h

/-- One link request that is not cut short keeps link symmetry. -/
lemma handle_linkOp_symmetric (L : Lib) (secretKey : Option String) (nd : Nondet) (db : Db)
    (header : Option String) (req : Request) (hreq : req.isLinkOp = true)
    (hcut : cutShort db (handle L secretKey nd db header req) = false)
    (h : UniqueIds db ∧ LinkSymmetric db ∧ NoDangling db) :
    UniqueIds (handle L secretKey nd db header req).2 ∧
      LinkSymmetric (handle L secretKey nd db header req).2 ∧
      NoDangling (handle L secretKey nd db header req).2 := by
  have hp : req.isProtected = true := by
    cases req <;> simp [Request.isLinkOp] at hreq <;> rfl
  cases hauth : authenticateUser L secretKey header with
  | respond r =>
    rw [handle_of_respond L secretKey nd db header r req hp hauth]
    exact h
  | next u =>
    rw [handle_of_next L secretKey nd db header u req hp hauth] at hcut ⊢
    cases req <;> simp [Request.isLinkOp] at hreq
    · exact createClass_inv (fun a b => a = b) rfl nd db _ h
    · exact createStudent_inv (fun a b => a = b) rfl nd db _ _ h
    · rename_i class_id student_id
      have hrp : runProtected L nd db u (.assignStudentToClass class_id student_id)
          = assignStudentToClass L nd db class_id student_id := rfl
      rw [hrp] at hcut ⊢
      rcases assign_db L nd db class_id student_id with he | ⟨c, s, _, _, hne, he⟩ |
        ⟨c, s, hcm, hsm, he⟩
      · rw [he]; exact h
      · rw [he] at hcut
        simp [cutShort, internalError, hne] at hcut
      · rw [he]
        exact assign_both_inv (fun a b => a = b)
          (fun a b k hab => by rw [hab]) db c s hcm hsm h

lemma reachable_inv (L : Lib) (secretKey : Option String) (cut : Bool) (db : Db)
    (hr : Reachable L secretKey cut db) :
    (UniqueIds db ∧ LinkBounded db ∧ NoDangling db) ∧ (cut = false → LinkSymmetric db) := by
  induction hr with
  | empty =>
    refine ⟨⟨⟨List.nodup_nil, List.nodup_nil⟩, ?_, ?_, ?_⟩, ?_⟩
    · intro c hc; simp [Db.empty] at hc
    · intro c hc; simp [Db.empty] at hc
    · intro s hs; simp [Db.empty] at hs
    · intro _ c hc; simp [Db.empty] at hc
  | step cut db nd header req _ hreq ih =>
    refine ⟨handle_linkOp_bounded L secretKey nd db header req hreq ih.1, ?_⟩
    intro hcut
    rw [Bool.or_eq_false_iff] at hcut
    exact (handle_linkOp_symmetric L secretKey nd db header req hreq hcut.2
      ⟨ih.1.1, ih.2 hcut.1, ih.1.2.2⟩).2.1

/-- C10 (as stated, refuted): after a class and a student are created, an
assignment whose class save is stored and whose student save is rejected is a
completed request answered 500; in the state it leaves, the student id occurs
once in the class's list and the class id does not occur in the student's list. -/
theorem half_saved_assignment_breaks_symmetry :
    Reachable refLib none true halfLinkedDb ∧
    (handle refLib none ⟨0, 0, true, false⟩
      (handle refLib none ⟨225, 0, true, true⟩
        (handle refLib none ⟨193, 0, true, true⟩ Db.empty (some sampleToken)
          (.createClass (some "Maths"))).2
        (some sampleToken) (.createStudent (some "Ann") none)).2
      (some sampleToken)
      (.assignStudentToClass (.str "0000000000000000000000c1")
        (.str "0000000000000000000000e1"))).1
      = ⟨500, .error "Internal Server Error"⟩ ∧
    halfLinkedDb = ⟨[], [], [⟨193, some "Maths", [225]⟩], [⟨225, some "Ann", none, []⟩]⟩ ∧
    ¬ (∀ c ∈ halfLinkedDb.classes, ∀ s ∈ halfLinkedDb.students,
        c.students.count s._id = s.classes.count c._id) :=
  ⟨Reachable.step _ _ ⟨0, 0, true, false⟩ (some sampleToken)
      (.assignStudentToClass (.str "0000000000000000000000c1")
        (.str "0000000000000000000000e1"))
      (Reachable.step _ _ ⟨225, 0, true, true⟩ (some sampleToken)
        (.createStudent (some "Ann") none)
        (Reachable.step _ _ ⟨193, 0, true, true⟩ (some sampleToken)
          (.createClass (some "Maths")) Reachable.empty rfl) rfl) rfl,
   by decide, by decide, by decide⟩

/-- C10 (amended): in every database state reached from the empty database by
completed create-class, create-student and assign-student-to-class requests
(answered 200 or with an error), every id stored in either array is the `_id`
of a stored record and the id of a class `c` occurs in `s.classes` at most as
often as the id of `s` occurs in `c.students`; the two numbers are equal when
no request of the run was answered 500 after a save of it had been stored. -/
theorem reachable_link_counts (L : Lib) (secretKey : Option String) (cut : Bool) (db : Db)
    (hr : Reachable L secretKey cut db) :
    (cut = false → ∀ c ∈ db.classes, ∀ s ∈ db.students,
      c.students.count s._id = s.classes.count c._id) ∧
    (∀ c ∈ db.classes, ∀ s ∈ db.students, s.classes.count c._id ≤ c.students.count s._id) ∧
    (∀ c ∈ db.classes, ∀ i ∈ c.students, ∃ s ∈ db.students, s._id = i) ∧
    (∀ s ∈ db.students, ∀ i ∈ s.classes, ∃ c ∈ db.classes, c._id = i) :=
  ⟨(reachable_inv L secretKey cut db hr).2, (reachable_inv L secretKey cut db hr).1.2.1,
    (reachable_inv L secretKey cut db hr).1.2.2⟩

/-! ## Witnesses on the sample data -/

/-- Witness for `assign_twice_duplicates`: Bob (`…e2`) assigned twice to Art (`…c2`). -/
theorem assign_twice_duplicates_witness :
    authenticateUser refLib none (some sampleToken) = .next sampleUser ∧
    refLib.castField (.str "0000000000000000000000c2") = some 194 ∧
    refLib.castField (.str "0000000000000000000000e2") = some 226 ∧
    findById Class._id sampleDb.classes 194 = some ⟨194, some "Art", [225]⟩ ∧
    findById Student._id sampleDb.students 226 = some ⟨226, some "Bob", none, [193]⟩ ∧
    ∃ db1 db2 c2 s2,
      handle refLib none ⟨300, 0, true, true⟩ sampleDb (some sampleToken)
          (.assignStudentToClass (.str "0000000000000000000000c2")
            (.str "0000000000000000000000e2"))
        = (⟨200, .message "Student assigned to class successfully"⟩, db1) ∧
      handle refLib none ⟨301, 0, true, true⟩ db1 (some sampleToken)
          (.assignStudentToClass (.str "0000000000000000000000c2")
            (.str "0000000000000000000000e2"))
        = (⟨200, .message "Student assigned to class successfully"⟩, db2) ∧
      findById Class._id db2.classes 194 = some c2 ∧
      findById Student._id db2.students 226 = some s2 ∧
      c2.students = [225] ++ [226, 226] ∧
      s2.classes = [193] ++ [194, 194] ∧
      c2.students.count 226 = ([225] : List ObjectId).count 226 + 2 ∧
      s2.classes.count 194 = ([193] : List ObjectId).count 194 + 2 ∧
      db2 ≠ db1 :=
  ⟨by decide, by decide, by decide, by decide, by decide,
   assign_twice_duplicates refLib none ⟨300, 0, true, true⟩ ⟨301, 0, true, true⟩ sampleDb
    (some sampleToken) sampleUser
    (.str "0000000000000000000000c2") (.str "0000000000000000000000e2") 194 226
    ⟨194, some "Art", [225]⟩ ⟨226, some "Bob", none, [193]⟩
    (by decide) (by decide) (by decide) (by decide) (by decide)
    ⟨rfl, rfl⟩ ⟨rfl, rfl⟩⟩

/-- Witness for `getClassById_cases`: the malformed id `abc` of the spec's example. -/
theorem getClassById_cases_witness :
    authenticateUser refLib none (some sampleToken) = .next sampleUser ∧
    (handle refLib none ⟨300, 0, true, true⟩ sampleDb (some sampleToken) (.getClassById "abc")).2
      = sampleDb ∧
    ((handle refLib none ⟨300, 0, true, true⟩ sampleDb (some sampleToken) (.getClassById "abc")).1.status
        = 400 ↔ refLib.isValid "abc" = false) :=
  ⟨by decide,
   (getClassById_cases refLib none ⟨300, 0, true, true⟩ sampleDb (some sampleToken) sampleUser "abc"
      (by decide)).1,
   (getClassById_cases refLib none ⟨300, 0, true, true⟩ sampleDb (some sampleToken) sampleUser "abc"
      (by decide)).2.2.1⟩

/-- Witness for `studentsInAllClasses_exact` on the sample database. -/
theorem studentsInAllClasses_exact_witness :
    authenticateUser refLib none (some sampleToken) = .next sampleUser ∧
    (sampleDb.classes = [] →
      handle refLib none ⟨300, 0, true, true⟩ sampleDb (some sampleToken) .studentsInAllClasses
        = (⟨200, .students []⟩, sampleDb)) ∧
    (sampleDb.classes ≠ [] →
      ∃ l, handle refLib none ⟨300, 0, true, true⟩ sampleDb (some sampleToken) .studentsInAllClasses
          = (⟨200, .students l⟩, sampleDb) ∧
        l = sampleDb.students.filter
          (fun s => decide (∀ c ∈ sampleDb.classes, c._id ∈ s.classes)) ∧
        ∀ s, s ∈ l ↔ s ∈ sampleDb.students ∧ ∀ c ∈ sampleDb.classes, c._id ∈ s.classes) :=
  ⟨by decide,
   studentsInAllClasses_exact refLib none ⟨300, 0, true, true⟩ sampleDb (some sampleToken) sampleUser
    (by decide)⟩

/-- Witness for `classmates_exact`: the classmates of Ann (`…e1`) on the sample database. -/
theorem classmates_exact_witness :
    authenticateUser refLib none (some sampleToken) = .next sampleUser ∧
    refLib.parseId "0000000000000000000000e1" = some 225 ∧
    findById Student._id sampleDb.students 225 = some ⟨225, some "Ann", none, [193, 194]⟩ ∧
    ∃ l, handle refLib none ⟨300, 0, true, true⟩ sampleDb (some sampleToken)
          (.classmates "0000000000000000000000e1")
        = (⟨200, .students l⟩, sampleDb) ∧
      l = sampleDb.students.filter
        (fun s => decide (s._id ≠ 225 ∧ ∃ i ∈ s.classes, i ∈ ([193, 194] : List ObjectId))) ∧
      (∀ s, s ∈ l ↔ s ∈ sampleDb.students ∧ s._id ≠ 225 ∧
        ∃ i ∈ s.classes, i ∈ ([193, 194] : List ObjectId)) ∧
      (⟨225, some "Ann", none, [193, 194]⟩ : Student) ∉ l ∧
      (∀ s ∈ sampleDb.students,
        (∀ i ∈ s.classes, i ∉ ([193, 194] : List ObjectId)) → s ∉ l) ∧
      (([193, 194] : List ObjectId) = [] → l = []) :=
  ⟨by decide, by decide, by decide,
   (classmates_exact refLib none ⟨300, 0, true, true⟩ sampleDb (some sampleToken) sampleUser
      "0000000000000000000000e1" (by decide)).2.2 225 ⟨225, some "Ann", none, [193, 194]⟩
      (by decide) (by decide)⟩

/-- Witness for `login_token_rejected`: Ann logs in on the sample database and
presents the token to `GET /students`. -/
theorem login_token_rejected_witness :
    (∀ p k k2, (refLib.jwtVerify (refLib.jwtSign p k) k2).isSome = true ↔ k = k2) ∧
    (∀ p k, refLib.jwtSign p k ≠ "") ∧
    (none : Option String) ≠ some "secret_key" ∧
    Request.isProtected .listStudents = true ∧
    handle refLib none ⟨300, 0, true, true⟩ sampleDb none (.login (some "a@b.com") (some "pw123"))
      = (⟨200, .loggedIn "Login successful"
            (User.withoutPassword ⟨161, some "Ann", some "a@b.com", some (refHash "pw123" 2),
              none, none, none, some "student"⟩)
            (refLib.jwtSign ⟨some ⟨some (refLib.showId 161)⟩⟩ "secret_key")⟩, sampleDb) ∧
    authenticateUser refLib none
        (some (refLib.jwtSign ⟨some ⟨some (refLib.showId 161)⟩⟩ "secret_key"))
      = .respond ⟨401, .message "Invalid token"⟩ ∧
    handle refLib none ⟨301, 0, true, true⟩ sampleDb
        (some (refLib.jwtSign ⟨some ⟨some (refLib.showId 161)⟩⟩ "secret_key")) .listStudents
      = (⟨401, .message "Invalid token"⟩, sampleDb) :=
  ⟨refLib_verify_sign, refLib_sign_ne_empty, by decide, by decide, by decide,
   login_token_rejected refLib none ⟨300, 0, true, true⟩ ⟨301, 0, true, true⟩ sampleDb sampleDb sampleDb none
    (some "a@b.com") (some "pw123") "Login successful"
    (User.withoutPassword ⟨161, some "Ann", some "a@b.com", some (refHash "pw123" 2),
      none, none, none, some "student"⟩)
    (refLib.jwtSign ⟨some ⟨some (refLib.showId 161)⟩⟩ "secret_key") .listStudents
    refLib_verify_sign refLib_sign_ne_empty (by decide) (by decide) (by decide)⟩

/-- Witness for `mySchools_cases`: Ann, a `student`, on the sample database, which
holds one School. -/
theorem mySchools_cases_witness :
    authenticateUser refLib none (some sampleToken) = .next sampleUser ∧
    sampleUser.bind (fun c => c.id) = some "0000000000000000000000a1" ∧
    refLib.parseId "0000000000000000000000a1" = some 161 ∧
    findById User._id sampleDb.users 161
      = some ⟨161, some "Ann", some "a@b.com", some (refHash "pw123" 2), none, none, none,
          some "student"⟩ ∧
    handle refLib none ⟨300, 0, true, true⟩ sampleDb (some sampleToken) .mySchools
      = (⟨200, .schools []⟩, sampleDb) :=
  ⟨by decide, by decide, by decide, by decide,
   ((mySchools_cases refLib none ⟨300, 0, true, true⟩ sampleDb (some sampleToken) sampleUser
      (by decide)).2.2 "0000000000000000000000a1" 161
      ⟨161, some "Ann", some "a@b.com", some (refHash "pw123" 2), none, none, none,
        some "student"⟩ (by decide) (by decide) (by decide) (by decide)).1
      (Or.inl (by decide))⟩

/-- Witness for `reachable_link_counts`: the state after creating a class and a
student and assigning the student to the class twice, every save stored. -/
theorem reachable_link_counts_witness :
    Reachable refLib none false linkedDb ∧
    linkedDb
      = ⟨[], [], [⟨193, some "Maths", [225, 225]⟩], [⟨225, some "Ann", none, [193, 193]⟩]⟩ ∧
    ((false = false → ∀ c ∈ linkedDb.classes, ∀ s ∈ linkedDb.students,
      c.students.count s._id = s.classes.count c._id) ∧
    (∀ c ∈ linkedDb.classes, ∀ s ∈ linkedDb.students,
      s.classes.count c._id ≤ c.students.count s._id) ∧
    (∀ c ∈ linkedDb.classes, ∀ i ∈ c.students, ∃ s ∈ linkedDb.students, s._id = i) ∧
    (∀ s ∈ linkedDb.students, ∀ i ∈ s.classes, ∃ c ∈ linkedDb.classes, c._id = i)) :=
  have h : Reachable refLib none false linkedDb :=
    Reachable.step _ _ ⟨0, 0, true, true⟩ (some sampleToken)
      (.assignStudentToClass (.str "0000000000000000000000c1")
        (.str "0000000000000000000000e1"))
      (Reachable.step _ _ ⟨0, 0, true, true⟩ (some sampleToken)
        (.assignStudentToClass (.str "0000000000000000000000c1")
          (.str "0000000000000000000000e1"))
        (Reachable.step _ _ ⟨225, 0, true, true⟩ (some sampleToken)
          (.createStudent (some "Ann") none)
          (Reachable.step _ _ ⟨193, 0, true, true⟩ (some sampleToken)
            (.createClass (some "Maths")) Reachable.empty rfl) rfl) rfl) rfl
  ⟨h, by decide, reachable_link_counts refLib none false linkedDb h⟩

end SchoolApp
